import Mathlib

/-!
Shallow embedding of `enhanced_slime_mold.py` (classes `Environment`,
`SlimeMold`, `SlimeMoldSimulator`).

Modelling conventions:
* Python floats are modelled as exact rationals (`ℚ`).
* `math.cos` / `math.sin` / `np.cos` / `np.sin` are an explicit function
  parameter (structure `MathF`); `math.pi` is the exact rational value of the
  IEEE-754 double stored in `math.pi`.
* Python's global `random` generator is an explicit stream of draws (`RNG`);
  draws are consumed in exactly the order the source evaluates calls to
  `random.random()` / `random.uniform(...)`, including short-circuiting.
* `pygame.time.get_ticks() / 1000` is an explicit `time` argument.
* The `snoise2` noise function is an oracle parameter of the environment
  generator.
* numpy arrays are total functions `ℕ → ℕ → ℚ`; numpy's negative-index
  wraparound is modelled by `npIdx`.  An access that would raise `IndexError`
  in Python (index `≥ width` or `< -width`) is not reachable in any theorem
  below, where positions are kept inside the grid.
-/

/-- Python's `int()` applied to a float: truncation toward zero. -/
def pyInt (q : ℚ) : ℤ := if 0 ≤ q then ⌊q⌋ else ⌈q⌉

/-- Python's `%` on an integer with a nonnegative integer modulus: for a
positive modulus the result is always in `[0, n)`. -/
def pyMod (i : ℤ) (n : ℕ) : ℕ := (i % (n : ℤ)).toNat

/-- Python's `%` on a float with a positive modulus (floor-mod: the result has
the sign of the divisor, `x %= width` lands in `[0, width)`). -/
def pyFMod (q : ℚ) (n : ℕ) : ℚ := q - (n : ℚ) * (⌊q / (n : ℚ)⌋ : ℚ)

/-- numpy integer indexing: a negative index `i` addresses `i + n`.  Total
function; out-of-range indices (which raise in Python) are unreachable in the
theorems below. -/
def npIdx (n : ℕ) (i : ℤ) : ℕ := if i < 0 then (i + (n : ℤ)).toNat else i.toNat

/-- Pointwise update of a 2-D scalar array (`arr[a, b] = v`). -/
def updMap (m : ℕ → ℕ → ℚ) (a b : ℕ) (v : ℚ) : ℕ → ℕ → ℚ :=
  fun i j => if i = a ∧ j = b then v else m i j

/-- The exact rational value of the IEEE-754 double `math.pi`. -/
def mathPi : ℚ := 884279719003555 / 281474976710656

/-- `class Species(Enum)` (line 10): the closed set of three species. -/
inductive Species where
  | PHYSARUM
  | DICTYOSTELIUM
  | FULIGO
deriving DecidableEq, Repr

/-- `@dataclass class Particle` (lines 15-28). -/
structure Particle where
  x : ℚ
  y : ℚ
  angle : ℚ
  speed : ℚ
  species : Species
  energy : ℚ
  moisture_preference : ℚ
  temperature_preference : ℚ
  trail_strength : ℚ
  sensor_distance : ℚ
  sensor_angle : ℚ
  rotation_angle : ℚ
deriving DecidableEq, Repr

/-- The mathematical functions `cos` and `sin` used by the source
(`math.cos`, `math.sin`, `np.cos`, `np.sin`), abstracted as a parameter of
the model since their values are irrational. -/
structure MathF where
  cos : ℚ → ℚ
  sin : ℚ → ℚ

/-- Python's global `random` generator, modelled as a stream of draws from
`random.random()` (each in `[0, 1)`) together with a cursor. -/
structure RNG where
  stream : ℕ → ℚ
  idx : ℕ

/-- One call to `random.random()`. -/
def RNG.next (g : RNG) : ℚ × RNG := (g.stream g.idx, ⟨g.stream, g.idx + 1⟩)

/-- One call to `random.uniform(a, b)` (CPython: `a + (b-a)*random()`). -/
def RNG.uniform (g : RNG) (a b : ℚ) : ℚ × RNG :=
  let r := g.next
  (a + (b - a) * r.1, r.2)

/-- `class Environment` (lines 30-42): the five same-sized scalar fields plus
the three rate settings. -/
structure Environment where
  temperature_map : ℕ → ℕ → ℚ
  moisture_map : ℕ → ℕ → ℚ
  obstacle_map : ℕ → ℕ → ℚ
  food_map : ℕ → ℕ → ℚ
  pheromone_map : ℕ → ℕ → ℚ
  pheromone_decay_rate : ℚ
  temperature_change_rate : ℚ
  moisture_change_rate : ℚ

/-- `Environment.__init__` + `generate_environment` (lines 31-58), with the
`snoise2` noise function as an oracle taking (x, y, octaves).  The maps start
as `np.zeros`; `generate_environment` overwrites temperature and moisture
everywhere, sets obstacle cells to `1.0` where the noise exceeds `0.7`, and
food cells to `1.0` where the noise exceeds `0.5` (scale `0.02 = 1/50`). -/
def Environment.init (snoise : ℚ → ℚ → ℕ → ℚ) : Environment :=
  { temperature_map := fun x y => snoise ((x : ℚ) * (1/50)) ((y : ℚ) * (1/50)) 3 * 10 + 20
    moisture_map := fun x y =>
      snoise ((x : ℚ) * (1/50) + 1000) ((y : ℚ) * (1/50) + 1000) 3 * (1/2) + 1/2
    obstacle_map := fun x y =>
      if snoise ((x : ℚ) * (1/50) + 2000) ((y : ℚ) * (1/50) + 2000) 2 > 7/10 then 1 else 0
    food_map := fun x y =>
      if snoise ((x : ℚ) * (1/50) + 3000) ((y : ℚ) * (1/50) + 3000) 4 > 1/2 then 1 else 0
    pheromone_map := fun _ _ => 0
    pheromone_decay_rate := 99/100
    temperature_change_rate := 1/10
    moisture_change_rate := 1/20 }

/-- `Environment.update` (lines 60-66): multiplicative pheromone decay and the
global sinusoidal temperature/moisture forcing; `time` is
`pygame.time.get_ticks() / 1000`. -/
def Environment.update (M : MathF) (time : ℚ) (e : Environment) : Environment :=
  { e with
    pheromone_map := fun x y => e.pheromone_map x y * e.pheromone_decay_rate
    temperature_map := fun x y =>
      e.temperature_map x y + M.sin (time / 60) * e.temperature_change_rate
    moisture_map := fun x y =>
      e.moisture_map x y + M.cos (time / 60) * e.moisture_change_rate }

/-- `class SlimeMold` state (lines 68-74).  `timeScale` models the value
`self.simulator.speed_settings[self.simulator.current_speed]['simulation_speed']`
read through the stored simulator reference (lines 213-215); it is `1.0`
when `self.simulator` is `None`. -/
structure SlimeMold where
  width : ℕ
  height : ℕ
  particles : List Particle
  environment : Environment
  timeScale : ℚ

/-- `species_params[s]['speed']` (lines 77-102). -/
def speciesSpeed : Species → ℚ
  | Species.PHYSARUM => 1
  | Species.DICTYOSTELIUM => 3/2
  | Species.FULIGO => 4/5

/-- `species_params[s]['sensor_distance']`. -/
def speciesSensorDistance : Species → ℚ
  | Species.PHYSARUM => 9
  | Species.DICTYOSTELIUM => 7
  | Species.FULIGO => 11

/-- `species_params[s]['trail_strength']`. -/
def speciesTrailStrength : Species → ℚ
  | Species.PHYSARUM => 1
  | Species.DICTYOSTELIUM => 4/5
  | Species.FULIGO => 6/5

/-- `species_params[s]['moisture_pref']`. -/
def speciesMoisturePref : Species → ℚ
  | Species.PHYSARUM => 7/10
  | Species.DICTYOSTELIUM => 4/5
  | Species.FULIGO => 3/5

/-- `species_params[s]['temp_pref']`. -/
def speciesTempPref : Species → ℚ
  | Species.PHYSARUM => 25
  | Species.DICTYOSTELIUM => 22
  | Species.FULIGO => 20

/-- `species_params[s]['count']`. -/
def speciesCount : Species → ℕ
  | Species.PHYSARUM => 200
  | Species.DICTYOSTELIUM => 200
  | Species.FULIGO => 200

/-- Construction of one fresh particle on the centre disk.  This identical
block of code appears three times in the source: in
`SlimeMold.initialize_particles` (lines 110-129), in
`SlimeMoldSimulator.toggle_species` (lines 377-395) and in
`SlimeMoldSimulator.reset_simulation` (lines 405-423).  Draw order follows
the source: placement angle, radius, then the heading passed to the
`Particle` constructor. -/
def spawnParticle (M : MathF) (w h : ℕ) (sp : Species) (g : RNG) : Particle × RNG :=
  let a := g.uniform 0 (2 * mathPi)
  let r := a.2.uniform 0 50
  let hd := r.2.uniform 0 (2 * mathPi)
  (⟨((w / 2 : ℕ) : ℚ) + r.1 * M.cos a.1,
    ((h / 2 : ℕ) : ℚ) + r.1 * M.sin a.1,
    hd.1,
    speciesSpeed sp,
    sp,
    100,
    speciesMoisturePref sp,
    speciesTempPref sp,
    speciesTrailStrength sp,
    speciesSensorDistance sp,
    mathPi / 4,
    mathPi / 8⟩, hd.2)

/-- `for _ in range(params['count'])`: spawn `n` fresh particles of one
species, threading the random stream. -/
def spawnParticles (M : MathF) (w h : ℕ) (sp : Species) : ℕ → RNG → List Particle × RNG
  | 0, g => ([], g)
  | n + 1, g =>
    let p := spawnParticle M w h sp g
    let rest := spawnParticles M w h sp n p.2
    (p.1 :: rest.1, rest.2)

/-- `SlimeMold.initialize_particles` (lines 106-129): `count` particles of
each species in enum order. -/
def init_particles (M : MathF) (w h : ℕ) (g : RNG) : List Particle × RNG :=
  let a := spawnParticles M w h Species.PHYSARUM (speciesCount Species.PHYSARUM) g
  let b := spawnParticles M w h Species.DICTYOSTELIUM (speciesCount Species.DICTYOSTELIUM) a.2
  let c := spawnParticles M w h Species.FULIGO (speciesCount Species.FULIGO) b.2
  (a.1 ++ (b.1 ++ c.1), c.2)

/-- `SlimeMold.is_obstacle` (lines 271-274): both coordinates truncated with
`int()` then taken `% width` / `% height`; obstacle iff stored value
exceeds `0.5`. -/
def SlimeMold.is_obstacle (st : SlimeMold) (x y : ℚ) : Bool :=
  decide (st.environment.obstacle_map (pyMod (pyInt x) st.width)
    (pyMod (pyInt y) st.height) > 1/2)

/-- `SlimeMold.get_sensor_value` (lines 254-269): obstacle sentinel `-1.0`;
food branch `food * 100 * hunger_factor` with
`hunger_factor = 1 + (100 - energy)/20`; otherwise `pheromone * 0.5`. -/
def SlimeMold.get_sensor_value (st : SlimeMold) (x y : ℚ) (p : Particle) : ℚ :=
  let xi := pyMod (pyInt x) st.width
  let yi := pyMod (pyInt y) st.height
  if st.is_obstacle (xi : ℚ) (yi : ℚ) then -1
  else if st.environment.food_map xi yi > 0 then
    st.environment.food_map xi yi * 100 * (1 + (100 - p.energy) / 20)
  else
    st.environment.pheromone_map xi yi * (1/2)

/-- The three sensing directions of the base steering rule. -/
inductive Dir where
  | front
  | left
  | right
deriving DecidableEq, Repr

/-- The shared decision of the base steering rule (lines 163-170 and the
analogous branches for the other species): keep heading iff front is the
strict maximum, else turn toward left if `left > right`, else right. -/
def baseDir (front_val left_val right_val : ℚ) : Dir :=
  if front_val > left_val ∧ front_val > right_val then Dir.front
  else if left_val > right_val then Dir.left
  else Dir.right

/-- The heading produced by the base steering rule with turn increment
`rot`. -/
def baseTurn (front_val left_val right_val rot angle : ℚ) : ℚ :=
  match baseDir front_val left_val right_val with
  | Dir.front => angle
  | Dir.left => angle - rot
  | Dir.right => angle + rot

/-- Lines 133-144: environmental stress at the particle's current cell,
`stress = |temp - pref| / 10 + |moist - pref|`. -/
def stressOf (st : SlimeMold) (p : Particle) : ℚ :=
  let x := npIdx st.width (pyInt p.x)
  let y := npIdx st.height (pyInt p.y)
  |st.environment.temperature_map x y - p.temperature_preference| / 10 +
    |st.environment.moisture_map x y - p.moisture_preference|

/-- Line 144: `particle.speed = max(0.1, particle.speed * (1 - stress * 0.1))`
applied to the persisted speed field. -/
def stressStage (st : SlimeMold) (p : Particle) : Particle :=
  { p with speed := max (1/10) (p.speed * (1 - stressOf st p * (1/10))) }

/-- Lines 146-160: the three probe points at dynamically widened distance
`sensor_distance * (1 + (100 - energy)/50)` and their sensor values
(front, left, right). -/
def sensorVals (M : MathF) (st : SlimeMold) (p : Particle) : ℚ × ℚ × ℚ :=
  let sensor_dist := p.sensor_distance * (1 + (100 - p.energy) / 50)
  (st.get_sensor_value (p.x + sensor_dist * M.cos p.angle)
      (p.y + sensor_dist * M.sin p.angle) p,
   st.get_sensor_value (p.x + sensor_dist * M.cos (p.angle - p.sensor_angle))
      (p.y + sensor_dist * M.sin (p.angle - p.sensor_angle)) p,
   st.get_sensor_value (p.x + sensor_dist * M.cos (p.angle + p.sensor_angle))
      (p.y + sensor_dist * M.sin (p.angle + p.sensor_angle)) p)

/-- Lines 162-188: species-specific steering.  PHYSARUM applies the base rule
with its turn increment; DICTYOSTELIUM first draws `random.random()` and with
probability `0.1` applies a random perturbation in `±π/4` instead; FULIGO
applies the base rule with the increment halved. -/
def steerStage (M : MathF) (st : SlimeMold) (p : Particle) (g : RNG) : Particle × RNG :=
  let v := sensorVals M st p
  match p.species with
  | Species.PHYSARUM =>
    ({ p with angle := baseTurn v.1 v.2.1 v.2.2 p.rotation_angle p.angle }, g)
  | Species.DICTYOSTELIUM =>
    let r := g.next
    if r.1 < 1/10 then
      let d := r.2.uniform (-(mathPi / 4)) (mathPi / 4)
      ({ p with angle := p.angle + d.1 }, d.2)
    else
      ({ p with angle := baseTurn v.1 v.2.1 v.2.2 p.rotation_angle p.angle }, r.2)
  | Species.FULIGO =>
    ({ p with angle := baseTurn v.1 v.2.1 v.2.2 (p.rotation_angle * (1/2)) p.angle }, g)

/-- Lines 190-200: candidate move along the (updated) heading at the current
speed; committed unless the candidate cell is an obstacle, in which case the
heading is reflected by `π` and the position is unchanged. -/
def moveStage (M : MathF) (st : SlimeMold) (p : Particle) : Particle :=
  let new_x := p.x + p.speed * M.cos p.angle
  let new_y := p.y + p.speed * M.sin p.angle
  if !(st.is_obstacle new_x new_y) then { p with x := new_x, y := new_y }
  else { p with angle := p.angle + mathPi }

/-- Lines 202-204: unconditional wraparound `x %= width; y %= height`. -/
def wrapStage (st : SlimeMold) (p : Particle) : Particle :=
  { p with x := pyFMod p.x st.width, y := pyFMod p.y st.height }

/-- Lines 206-210: pheromone deposit `min(1.0, pheromone + trail_strength)` at
the particle's integer cell, guarded by the bounds check of the source. -/
def depositStage (st : SlimeMold) (e : Environment) (p : Particle) : Environment :=
  let x := pyInt p.x
  let y := pyInt p.y
  if 0 ≤ x ∧ x < (st.width : ℤ) ∧ 0 ≤ y ∧ y < (st.height : ℤ) then
    let v := min 1 (e.pheromone_map x.toNat y.toNat + p.trail_strength)
    { e with pheromone_map := updMap e.pheromone_map x.toNat y.toNat v }
  else e

/-- Lines 217-223: feeding; when the cell holds food the particle gains
`energy_gain = 20` capped at `100`, and `consumption_rate = 0.5` food is
consumed, floored at `0`. -/
def feedStage (st : SlimeMold) (e : Environment) (p : Particle) : Particle × Environment :=
  let x := npIdx st.width (pyInt p.x)
  let y := npIdx st.height (pyInt p.y)
  if e.food_map x y > 0 then
    ({ p with energy := min 100 (p.energy + 20) },
     { e with food_map := updMap e.food_map x y (max 0 (e.food_map x y - 1/2)) })
  else (p, e)

/-- Lines 225-228: energy decay `0.005 * movement_factor`, where
`movement_factor` is `1.0` when `|speed| > 0.1` and `0.5` otherwise;
independent of the simulation-speed multiplier. -/
def decayStage (p : Particle) : Particle :=
  let movement_factor : ℚ := if |p.speed| > 1/10 then 1 else 1/2
  { p with energy := p.energy - (1/200) * movement_factor }

/-- Lines 230-246: reproduction.  Only evaluated (and only drawing from the
generator, by short-circuit) when `energy > 80`; succeeds when the draw is
below `0.001 * time_scale`; the child copies the parent's position, current
speed and geometry, gets energy `50` and a random heading; the parent is
then charged `30` energy. -/
def reproduceStage (p : Particle) (time_scale : ℚ) (g : RNG) :
    Particle × Option Particle × RNG :=
  if p.energy > 80 then
    let r := g.next
    if r.1 < (1/1000) * time_scale then
      let a := r.2.uniform 0 (2 * mathPi)
      ({ p with energy := p.energy - 30 },
       some ⟨p.x, p.y, a.1, p.speed, p.species, 50, p.moisture_preference,
         p.temperature_preference, p.trail_strength, p.sensor_distance,
         p.sensor_angle, p.rotation_angle⟩,
       a.2)
    else (p, none, r.2)
  else (p, none, g)

/-- The result of processing one particle of the update loop: the updated
particle (mutated in place in the source), the updated environment, the
appended child if reproduction fired, and the advanced random stream. -/
structure StepOut where
  particle : Particle
  environment : Environment
  child : Option Particle
  rng : RNG

/-- The per-particle body of `SlimeMold.update` (lines 132-246), as the
sequential composition of its stages.  All environment reads (stress,
sensors, obstacle test) happen before this particle's own deposit/feed
writes, exactly as in the source. -/
def processParticle (M : MathF) (st : SlimeMold) (p : Particle) (g : RNG) : StepOut :=
  let p1 := stressStage st p
  let s := steerStage M st p1 g
  let p3 := wrapStage st (moveStage M st s.1)
  let e1 := depositStage st st.environment p3
  let fe := feedStage st e1 p3
  let p5 := decayStage fe.1
  let rep := reproduceStage p5 st.timeScale s.2
  ⟨rep.1, fe.2, rep.2.1, rep.2.2⟩

/-- One iteration of the `for particle in self.particles` loop at index `i`:
the processed particle replaces the `i`-th entry (in-place mutation in the
source), a spawned child is appended at the end, and the environment and
random stream advance. -/
def stepAt (M : MathF) (st : SlimeMold) (i : ℕ) (h : i < st.particles.length)
    (g : RNG) : SlimeMold × RNG :=
  let out := processParticle M st (st.particles.get ⟨i, h⟩) g
  let withParent := st.particles.set i out.particle
  let newParticles := match out.child with
    | some c => withParent ++ [c]
    | none => withParent
  ({ st with particles := newParticles, environment := out.environment }, out.rng)

/-- The `for particle in self.particles` loop of `SlimeMold.update`.  Python
iterates a list by index while `self.particles.append(...)` may grow it, so
children appended during the loop are themselves visited.  The loop is
expressed with explicit fuel; `SlimeMold.update` supplies fuel
`2 * length + 1`, which is never exhausted: every appended child is created
with energy exactly `50`, so when it is visited its energy at the
reproduction check is at most `70 - 0.0025 < 80` and it never appends, hence
at most `2 * length` indices are ever visited. -/
def updateLoop (M : MathF) : ℕ → ℕ → SlimeMold → RNG → SlimeMold × RNG
  | 0, _, st, g => (st, g)
  | fuel + 1, i, st, g =>
    if h : i < st.particles.length then
      let s := stepAt M st i h g
      updateLoop M fuel (i + 1) s.1 s.2
    else (st, g)

/-- `SlimeMold.update` (lines 131-252): the particle loop, then
`Environment.update`, then the death filter removing every particle with
`energy ≤ 0`. -/
def SlimeMold.update (M : MathF) (time : ℚ) (st : SlimeMold) (g : RNG) : SlimeMold × RNG :=
  let l := updateLoop M (2 * st.particles.length + 1) 0 st g
  let st2 := { l.1 with environment := Environment.update M time l.1.environment }
  ({ st2 with particles := st2.particles.filter (fun p => decide (p.energy > 0)) }, l.2)

/-- `n` successive calls to `SlimeMold.update`; `times k` is the value of
`pygame.time.get_ticks() / 1000` observed by the `k`-th call. -/
def updateN (M : MathF) (times : ℕ → ℚ) : ℕ → SlimeMold × RNG → SlimeMold × RNG
  | 0, s => s
  | n + 1, s => updateN M times n (SlimeMold.update M (times n) s.1 s.2)

/-- The simulator state relevant to the engine: the owned `SlimeMold` and the
per-species activity flags (lines 282-296). -/
structure SlimeMoldSimulator where
  slime : SlimeMold
  active_species : Species → Bool

/-- `SlimeMoldSimulator.toggle_species` (lines 369-395): flip the flag, filter
out particles of inactive species, and if the species is now active spawn its
configured count of fresh particles. -/
def toggle_species (M : MathF) (sim : SlimeMoldSimulator) (sp : Species) (g : RNG) :
    SlimeMoldSimulator × RNG :=
  let active := fun s => if s = sp then !sim.active_species sp else sim.active_species s
  let kept := sim.slime.particles.filter (fun p => active p.species)
  if active sp then
    let r := spawnParticles M sim.slime.width sim.slime.height sp (speciesCount sp) g
    ({ slime := { sim.slime with particles := kept ++ r.1 }, active_species := active }, r.2)
  else
    ({ slime := { sim.slime with particles := kept }, active_species := active }, g)

/-- `SlimeMoldSimulator.reset_simulation` (lines 397-423): clear all
particles, then regenerate the initial population for each currently active
species, in enum order.  The environment is not touched. -/
def reset_simulation (M : MathF) (sim : SlimeMoldSimulator) (g : RNG) :
    SlimeMoldSimulator × RNG :=
  let w := sim.slime.width
  let h := sim.slime.height
  let a := if sim.active_species Species.PHYSARUM then
      spawnParticles M w h Species.PHYSARUM (speciesCount Species.PHYSARUM) g
    else ([], g)
  let b := if sim.active_species Species.DICTYOSTELIUM then
      spawnParticles M w h Species.DICTYOSTELIUM (speciesCount Species.DICTYOSTELIUM) a.2
    else ([], a.2)
  let c := if sim.active_species Species.FULIGO then
      spawnParticles M w h Species.FULIGO (speciesCount Species.FULIGO) b.2
    else ([], b.2)
  ({ sim with slime := { sim.slime with particles := a.1 ++ (b.1 ++ c.1) } }, c.2)

/-- The external "place food" control event (line 340):
`food_map[x, y] = 1.0`. -/
def depositFood (st : SlimeMold) (x y : ℕ) : SlimeMold :=
  { st with environment :=
      { st.environment with food_map := updMap st.environment.food_map x y 1 } }

/-- The two fields of the claims' invariants on cells:
`0 ≤ pheromone ≤ 1` and `0 ≤ food ≤ 1` at every cell. -/
def envBounds (e : Environment) : Prop :=
  ∀ a b : ℕ, (0 ≤ e.pheromone_map a b ∧ e.pheromone_map a b ≤ 1) ∧
    (0 ≤ e.food_map a b ∧ e.food_map a b ≤ 1)

/-- A particle position inside the `[0, width) × [0, height)` domain. -/
def inRange (w h : ℕ) (p : Particle) : Prop :=
  0 ≤ p.x ∧ p.x < (w : ℚ) ∧ 0 ≤ p.y ∧ p.y < (h : ℚ)

/-- Number of live particles of a given species. -/
def speciesCountIn (l : List Particle) (sp : Species) : ℕ :=
  (l.filter (fun p => decide (p.species = sp))).length

/-- The sub-list of particles of species other than `sp`, in order. -/
def othersOf (l : List Particle) (sp : Species) : List Particle :=
  l.filter (fun p => !decide (p.species = sp))

/-- Concrete stand-in for `cos` used in the closed evaluations below.  It
agrees with the real cosine at every point those runs actually sample with a
nonzero coefficient (`cos 0 = 1`); elsewhere the runs only multiply its value
by `0`-producing positions or compare field values that do not depend on
it. -/
def cosEx : ℚ → ℚ := fun q => if q = 0 then 1 else 0

/-- Concrete stand-in for `sin`; the closed runs below only sample it at
points where the real sine is `0` or where its value is multiplied into a
position that the run never uses. -/
def sinEx : ℚ → ℚ := fun _ => 0

/-- The concrete math-function instance for closed evaluations. -/
def mEx : MathF := ⟨cosEx, sinEx⟩

/-- A random stream returning `0` on every draw (so a reproduction check
`0 < 0.001 * time_scale` succeeds). -/
def rngZero : RNG := ⟨fun _ => 0, 0⟩

/-- A random stream returning `1` on every draw (so probabilistic branches
`r < 0.1` and `r < 0.001 * time_scale` all fail). -/
def rngOne : RNG := ⟨fun _ => 1, 0⟩

/-- A stress-free environment: temperature `25` and moisture `0.7` everywhere
(matching the PHYSARUM preferences), no obstacles, no food, no pheromone. -/
def envA : Environment :=
  { temperature_map := fun _ _ => 25
    moisture_map := fun _ _ => 7/10
    obstacle_map := fun _ _ => 0
    food_map := fun _ _ => 0
    pheromone_map := fun _ _ => 0
    pheromone_decay_rate := 99/100
    temperature_change_rate := 1/10
    moisture_change_rate := 1/20 }

/-- Same as `envA` but temperature `15` everywhere, so a PHYSARUM particle
(preference `25`) has constant environmental stress `1`. -/
def envB : Environment := { envA with temperature_map := fun _ _ => 15 }

/-- A PHYSARUM particle at the centre of an `800 × 600` grid with full
energy, base speed and the fixed sensor geometry. -/
def parA : Particle :=
  ⟨400, 300, 0, 1, Species.PHYSARUM, 100, 7/10, 25, 1, 9, mathPi / 4, mathPi / 8⟩

/-- Single-particle state over the stress-free environment. -/
def stA : SlimeMold :=
  { width := 800, height := 600, particles := [parA], environment := envA, timeScale := 1 }

/-- Single-particle state over the stressful environment `envB`. -/
def stB : SlimeMold := { stA with environment := envB }

/-- The exact child record spawned in the `stA` / `rngZero` run. -/
def childA : Particle :=
  ⟨400, 300, 0, 1, Species.PHYSARUM, 50, 7/10, 25, 1, 9, mathPi / 4, mathPi / 8⟩

/-- Simulator state wrapping `stA` with all species active. -/
def simA : SlimeMoldSimulator := ⟨stA, fun _ => true⟩

/-- The per-particle fields that the update loop never mutates: species tag,
environmental preferences, trail strength and sensor geometry. -/
def geomEq (p q : Particle) : Prop :=
  p.species = q.species ∧ p.moisture_preference = q.moisture_preference ∧
  p.temperature_preference = q.temperature_preference ∧
  p.trail_strength = q.trail_strength ∧ p.sensor_distance = q.sensor_distance ∧
  p.sensor_angle = q.sensor_angle ∧ p.rotation_angle = q.rotation_angle

/-- The parent particle of the `stA` run after its processing: steered to
heading `π/8`, unmoved (the example cosine vanishes off `0`), energy
`100 - 0.005 - 30 = 69.995`. -/
def stepA1 : Particle :=
  ⟨400, 300, mathPi / 8, 1, Species.PHYSARUM, 13999/200, 7/10, 25, 1, 9,
    mathPi / 4, mathPi / 8⟩

/-- The environment of the `stA` run after the parent's trail deposit. -/
def envA1 : Environment :=
  { envA with pheromone_map := updMap envA.pheromone_map 400 300 1 }

/-- The random stream cursor after the parent's two draws. -/
def gA2 : RNG := ⟨fun _ => 0, 2⟩

/-- The loop state of the `stA` run after index 0 (parent processed, child
appended). -/
def stA1 : SlimeMold := { stA with particles := [stepA1, childA], environment := envA1 }

/-- The child of the `stA` run after being processed in the same sub-step:
steered to `π/8`, energy decayed to `49.995 = 9999/200`. -/
def childA1 : Particle :=
  ⟨400, 300, mathPi / 8, 1, Species.PHYSARUM, 9999/200, 7/10, 25, 1, 9,
    mathPi / 4, mathPi / 8⟩

/-- The environment of the `stA` run after the child also deposits. -/
def envA2 : Environment :=
  { envA1 with pheromone_map := updMap envA1.pheromone_map 400 300 1 }

/-- The loop state of the `stA` run after index 1. -/
def stA2 : SlimeMold := { stA1 with particles := [stepA1, childA1], environment := envA2 }

/-- The particle of the `stB` run after tick 1: stress `1` damps the speed
to `0.9`; energy `100 - 0.005`. -/
def parB1 : Particle :=
  ⟨400, 300, mathPi / 8, 9/10, Species.PHYSARUM, 19999/200, 7/10, 25, 1, 9,
    mathPi / 4, mathPi / 8⟩

/-- The environment of the `stB` run after tick 1's deposit (before the
environment tick). -/
def envB1 : Environment :=
  { envB with pheromone_map := updMap envB.pheromone_map 400 300 1 }

/-- The random stream cursor of the `stB` run after tick 1 (one failed
reproduction draw). -/
def gB1 : RNG := ⟨fun _ => 1, 1⟩

/-- The state of the `stB` run at the start of tick 2. -/
def stB1 : SlimeMold :=
  { stB with particles := [parB1], environment := Environment.update mEx 60 envB1 }

/-- The particle of the `stB` run after tick 2: the damping multiplies the
persisted `0.9`, giving `0.81`. -/
def parB2 : Particle :=
  ⟨400, 300, mathPi / 4, 81/100, Species.PHYSARUM, 9999/100, 7/10, 25, 1, 9,
    mathPi / 4, mathPi / 8⟩

/-- The environment of the `stB` run after tick 2's deposit. -/
def envB2 : Environment :=
  { Environment.update mEx 60 envB1 with
    pheromone_map := updMap (Environment.update mEx 60 envB1).pheromone_map 400 300 1 }

/-- The random stream cursor of the `stB` run after tick 2. -/
def gB2 : RNG := ⟨fun _ => 1, 2⟩

/-- The loop state of the `stB` run after tick 1's particle pass (before the
environment tick). -/
def stBmid : SlimeMold := { stB with particles := [parB1], environment := envB1 }

/-- The loop state of the `stB` run after tick 2's particle pass. -/
def stBmid2 : SlimeMold := { stB1 with particles := [parB2], environment := envB2 }

/-! ## Helper lemmas -/

theorem geomEq_refl (p : Particle) : geomEq p p :=
  ⟨rfl, rfl, rfl, rfl, rfl, rfl, rfl⟩

theorem geomEq_trans {p q r : Particle} (h1 : geomEq p q) (h2 : geomEq q r) :
    geomEq p r := by
  obtain ⟨a1, a2, a3, a4, a5, a6, a7⟩ := h1
  obtain ⟨b1, b2, b3, b4, b5, b6, b7⟩ := h2
  exact ⟨a1.trans b1, a2.trans b2, a3.trans b3, a4.trans b4, a5.trans b5,
    a6.trans b6, a7.trans b7⟩

theorem pyFMod_nonneg (q : ℚ) (n : ℕ) (h : 0 < n) : 0 ≤ pyFMod q n := by
  unfold pyFMod
  have hn : (0 : ℚ) < (n : ℚ) := by exact_mod_cast h
  have hfl : ((⌊q / (n : ℚ)⌋ : ℚ)) ≤ q / (n : ℚ) := Int.floor_le _
  have h2 : (n : ℚ) * (q / (n : ℚ)) = q := by field_simp
  nlinarith

theorem pyFMod_lt (q : ℚ) (n : ℕ) (h : 0 < n) : pyFMod q n < (n : ℚ) := by
  unfold pyFMod
  have hn : (0 : ℚ) < (n : ℚ) := by exact_mod_cast h
  have hfl : q / (n : ℚ) < (⌊q / (n : ℚ)⌋ : ℚ) + 1 := Int.lt_floor_add_one _
  have h2 : (n : ℚ) * (q / (n : ℚ)) = q := by field_simp
  nlinarith

theorem steerStage_shape (M : MathF) (st : SlimeMold) (p : Particle) (g : RNG) :
    ∃ a g2, steerStage M st p g = ({ p with angle := a }, g2) := by
  unfold steerStage
  cases p.species
  · exact ⟨_, _, rfl⟩
  · dsimp only
    split
    · exact ⟨_, _, rfl⟩
    · exact ⟨_, _, rfl⟩
  · exact ⟨_, _, rfl⟩

theorem moveStage_shape (M : MathF) (st : SlimeMold) (p : Particle) :
    ∃ a xx yy, moveStage M st p = { p with angle := a, x := xx, y := yy } := by
  unfold moveStage
  dsimp only
  split
  · exact ⟨p.angle, _, _, rfl⟩
  · exact ⟨_, p.x, p.y, rfl⟩

theorem feedStage_shape (st : SlimeMold) (e : Environment) (p : Particle) :
    ∃ en e2, feedStage st e p = ({ p with energy := en }, e2) := by
  unfold feedStage
  dsimp only
  split
  · exact ⟨_, _, rfl⟩
  · exact ⟨p.energy, e, rfl⟩

theorem reproduceStage_parent_shape (p : Particle) (ts : ℚ) (g : RNG) :
    ∃ en, (reproduceStage p ts g).1 = { p with energy := en } := by
  unfold reproduceStage
  split
  · dsimp only
    split
    · exact ⟨_, rfl⟩
    · exact ⟨p.energy, rfl⟩
  · exact ⟨p.energy, rfl⟩

theorem stress_speed (st : SlimeMold) (p : Particle) :
    (stressStage st p).speed = max (1/10) (p.speed * (1 - stressOf st p * (1/10))) := rfl

theorem stress_energy (st : SlimeMold) (p : Particle) :
    (stressStage st p).energy = p.energy := rfl

theorem stress_x (st : SlimeMold) (p : Particle) : (stressStage st p).x = p.x := rfl

theorem stress_y (st : SlimeMold) (p : Particle) : (stressStage st p).y = p.y := rfl

theorem stress_geom (st : SlimeMold) (p : Particle) : geomEq p (stressStage st p) :=
  ⟨rfl, rfl, rfl, rfl, rfl, rfl, rfl⟩

theorem steer_speed (M : MathF) (st : SlimeMold) (p : Particle) (g : RNG) :
    (steerStage M st p g).1.speed = p.speed := by
  obtain ⟨a, g2, h⟩ := steerStage_shape M st p g
  rw [h]

theorem steer_energy (M : MathF) (st : SlimeMold) (p : Particle) (g : RNG) :
    (steerStage M st p g).1.energy = p.energy := by
  obtain ⟨a, g2, h⟩ := steerStage_shape M st p g
  rw [h]

theorem steer_x (M : MathF) (st : SlimeMold) (p : Particle) (g : RNG) :
    (steerStage M st p g).1.x = p.x := by
  obtain ⟨a, g2, h⟩ := steerStage_shape M st p g
  rw [h]

theorem steer_y (M : MathF) (st : SlimeMold) (p : Particle) (g : RNG) :
    (steerStage M st p g).1.y = p.y := by
  obtain ⟨a, g2, h⟩ := steerStage_shape M st p g
  rw [h]

theorem steer_geom (M : MathF) (st : SlimeMold) (p : Particle) (g : RNG) :
    geomEq p (steerStage M st p g).1 := by
  obtain ⟨a, g2, h⟩ := steerStage_shape M st p g
  rw [h]
  exact ⟨rfl, rfl, rfl, rfl, rfl, rfl, rfl⟩

theorem move_speed (M : MathF) (st : SlimeMold) (p : Particle) :
    (moveStage M st p).speed = p.speed := by
  obtain ⟨a, xx, yy, h⟩ := moveStage_shape M st p
  rw [h]

theorem move_energy (M : MathF) (st : SlimeMold) (p : Particle) :
    (moveStage M st p).energy = p.energy := by
  obtain ⟨a, xx, yy, h⟩ := moveStage_shape M st p
  rw [h]

theorem move_geom (M : MathF) (st : SlimeMold) (p : Particle) :
    geomEq p (moveStage M st p) := by
  obtain ⟨a, xx, yy, h⟩ := moveStage_shape M st p
  rw [h]
  exact ⟨rfl, rfl, rfl, rfl, rfl, rfl, rfl⟩

theorem wrap_x (st : SlimeMold) (p : Particle) :
    (wrapStage st p).x = pyFMod p.x st.width := rfl

theorem wrap_y (st : SlimeMold) (p : Particle) :
    (wrapStage st p).y = pyFMod p.y st.height := rfl

theorem wrap_speed (st : SlimeMold) (p : Particle) : (wrapStage st p).speed = p.speed := rfl

theorem wrap_energy (st : SlimeMold) (p : Particle) : (wrapStage st p).energy = p.energy := rfl

theorem wrap_geom (st : SlimeMold) (p : Particle) : geomEq p (wrapStage st p) :=
  ⟨rfl, rfl, rfl, rfl, rfl, rfl, rfl⟩

theorem feed_speed (st : SlimeMold) (e : Environment) (p : Particle) :
    (feedStage st e p).1.speed = p.speed := by
  obtain ⟨en, e2, h⟩ := feedStage_shape st e p
  rw [h]

theorem feed_x (st : SlimeMold) (e : Environment) (p : Particle) :
    (feedStage st e p).1.x = p.x := by
  obtain ⟨en, e2, h⟩ := feedStage_shape st e p
  rw [h]

theorem feed_y (st : SlimeMold) (e : Environment) (p : Particle) :
    (feedStage st e p).1.y = p.y := by
  obtain ⟨en, e2, h⟩ := feedStage_shape st e p
  rw [h]

theorem feed_geom (st : SlimeMold) (e : Environment) (p : Particle) :
    geomEq p (feedStage st e p).1 := by
  obtain ⟨en, e2, h⟩ := feedStage_shape st e p
  rw [h]
  exact ⟨rfl, rfl, rfl, rfl, rfl, rfl, rfl⟩

theorem feed_energy_le (st : SlimeMold) (e : Environment) (p : Particle)
    (h : p.energy ≤ 100) : (feedStage st e p).1.energy ≤ 100 := by
  unfold feedStage
  dsimp only
  split
  · simp
  · exact h

theorem decay_speed (p : Particle) : (decayStage p).speed = p.speed := rfl

theorem decay_x (p : Particle) : (decayStage p).x = p.x := rfl

theorem decay_y (p : Particle) : (decayStage p).y = p.y := rfl

theorem decay_geom (p : Particle) : geomEq p (decayStage p) :=
  ⟨rfl, rfl, rfl, rfl, rfl, rfl, rfl⟩

theorem decay_energy_le (p : Particle) : (decayStage p).energy ≤ p.energy := by
  unfold decayStage
  dsimp only
  split
  · linarith
  · linarith

theorem rep_speed (p : Particle) (ts : ℚ) (g : RNG) :
    (reproduceStage p ts g).1.speed = p.speed := by
  obtain ⟨en, h⟩ := reproduceStage_parent_shape p ts g
  rw [h]

theorem rep_x (p : Particle) (ts : ℚ) (g : RNG) :
    (reproduceStage p ts g).1.x = p.x := by
  obtain ⟨en, h⟩ := reproduceStage_parent_shape p ts g
  rw [h]

theorem rep_y (p : Particle) (ts : ℚ) (g : RNG) :
    (reproduceStage p ts g).1.y = p.y := by
  obtain ⟨en, h⟩ := reproduceStage_parent_shape p ts g
  rw [h]

theorem rep_geom (p : Particle) (ts : ℚ) (g : RNG) :
    geomEq p (reproduceStage p ts g).1 := by
  obtain ⟨en, h⟩ := reproduceStage_parent_shape p ts g
  rw [h]
  exact ⟨rfl, rfl, rfl, rfl, rfl, rfl, rfl⟩

theorem rep_energy_le (p : Particle) (ts : ℚ) (g : RNG) :
    (reproduceStage p ts g).1.energy ≤ p.energy := by
  unfold reproduceStage
  dsimp only
  split
  · split
    · dsimp only
      linarith
    · exact le_refl _
  · exact le_refl _

theorem reproduceStage_child_fields (p : Particle) (ts : ℚ) (g : RNG) (c : Particle)
    (h : (reproduceStage p ts g).2.1 = some c) :
    c.x = p.x ∧ c.y = p.y ∧ c.speed = p.speed ∧ c.species = p.species ∧
    c.energy = 50 ∧ c.moisture_preference = p.moisture_preference ∧
    c.temperature_preference = p.temperature_preference ∧
    c.trail_strength = p.trail_strength ∧ c.sensor_distance = p.sensor_distance ∧
    c.sensor_angle = p.sensor_angle ∧ c.rotation_angle = p.rotation_angle := by
  unfold reproduceStage at h
  dsimp only at h
  split at h
  · split at h
    · dsimp only at h
      rw [Option.some_inj] at h
      subst h
      exact ⟨rfl, rfl, rfl, rfl, rfl, rfl, rfl, rfl, rfl, rfl, rfl⟩
    · exact absurd h (by simp)
  · exact absurd h (by simp)

theorem deposit_rate (st : SlimeMold) (e : Environment) (p : Particle) :
    (depositStage st e p).pheromone_decay_rate = e.pheromone_decay_rate := by
  unfold depositStage
  dsimp only
  split
  · rfl
  · rfl

theorem deposit_env_bounds (st : SlimeMold) (e : Environment) (p : Particle)
    (he : envBounds e) (ht : 0 ≤ p.trail_strength) :
    envBounds (depositStage st e p) := by
  unfold depositStage
  dsimp only
  split
  · intro a b
    refine ⟨?_, (he a b).2⟩
    dsimp only [updMap]
    split
    · constructor
      · exact le_min (by norm_num) (add_nonneg (he _ _).1.1 ht)
      · exact min_le_left _ _
    · exact (he a b).1
  · exact he

theorem feed_rate (st : SlimeMold) (e : Environment) (p : Particle) :
    (feedStage st e p).2.pheromone_decay_rate = e.pheromone_decay_rate := by
  unfold feedStage
  dsimp only
  split
  · rfl
  · rfl

theorem feed_env_bounds (st : SlimeMold) (e : Environment) (p : Particle)
    (he : envBounds e) : envBounds (feedStage st e p).2 := by
  unfold feedStage
  dsimp only
  split
  · intro a b
    refine ⟨(he a b).1, ?_⟩
    dsimp only [updMap]
    split
    · have hf := (he (npIdx st.width (pyInt p.x)) (npIdx st.height (pyInt p.y))).2.2
      constructor
      · exact le_max_left _ _
      · exact max_le (by norm_num) (by linarith)
    · exact (he a b).2
  · exact he

theorem processParticle_speed (M : MathF) (st : SlimeMold) (p : Particle) (g : RNG) :
    (processParticle M st p g).particle.speed =
      max (1/10) (p.speed * (1 - stressOf st p * (1/10))) := by
  simp only [processParticle, rep_speed, decay_speed, feed_speed, wrap_speed, move_speed,
    steer_speed, stress_speed]

theorem processParticle_geom (M : MathF) (st : SlimeMold) (p : Particle) (g : RNG) :
    geomEq p (processParticle M st p g).particle := by
  simp only [processParticle]
  refine geomEq_trans (stress_geom st p) ?_
  refine geomEq_trans (steer_geom M st (stressStage st p) g) ?_
  refine geomEq_trans (move_geom M st _) ?_
  refine geomEq_trans (wrap_geom st _) ?_
  refine geomEq_trans (feed_geom st
    (depositStage st st.environment
      (wrapStage st (moveStage M st (steerStage M st (stressStage st p) g).1))) _) ?_
  refine geomEq_trans (decay_geom _) ?_
  exact rep_geom _ st.timeScale _

theorem processParticle_energy_le (M : MathF) (st : SlimeMold) (p : Particle) (g : RNG)
    (h : p.energy ≤ 100) : (processParticle M st p g).particle.energy ≤ 100 := by
  simp only [processParticle]
  refine le_trans (rep_energy_le _ _ _) (le_trans (decay_energy_le _) ?_)
  apply feed_energy_le
  rw [wrap_energy, move_energy, steer_energy, stress_energy]
  exact h

theorem processParticle_pos (M : MathF) (st : SlimeMold) (p : Particle) (g : RNG)
    (hw : 0 < st.width) (hh : 0 < st.height) :
    inRange st.width st.height (processParticle M st p g).particle := by
  simp only [processParticle, inRange]
  refine ⟨?_, ?_, ?_, ?_⟩ <;>
    simp only [rep_x, rep_y, decay_x, decay_y, feed_x, feed_y, wrap_x, wrap_y]
  · exact pyFMod_nonneg _ _ hw
  · exact pyFMod_lt _ _ hw
  · exact pyFMod_nonneg _ _ hh
  · exact pyFMod_lt _ _ hh

theorem processParticle_env_bounds (M : MathF) (st : SlimeMold) (p : Particle) (g : RNG)
    (he : envBounds st.environment) (ht : 0 ≤ p.trail_strength) :
    envBounds (processParticle M st p g).environment := by
  simp only [processParticle]
  apply feed_env_bounds
  apply deposit_env_bounds st _ _ he
  have hg : geomEq p (wrapStage st (moveStage M st (steerStage M st (stressStage st p) g).1)) :=
    geomEq_trans (stress_geom st p) (geomEq_trans (steer_geom M st _ g)
      (geomEq_trans (move_geom M st _) (wrap_geom st _)))
  rw [← hg.2.2.2.1]
  exact ht

theorem processParticle_rate (M : MathF) (st : SlimeMold) (p : Particle) (g : RNG) :
    (processParticle M st p g).environment.pheromone_decay_rate =
      st.environment.pheromone_decay_rate := by
  simp only [processParticle, feed_rate, deposit_rate]

theorem processParticle_child (M : MathF) (st : SlimeMold) (p : Particle) (g : RNG)
    (c : Particle) (h : (processParticle M st p g).child = some c) :
    c.energy = 50 ∧ c.x = (processParticle M st p g).particle.x ∧
    c.y = (processParticle M st p g).particle.y ∧
    c.speed = (processParticle M st p g).particle.speed ∧ geomEq p c := by
  simp only [processParticle] at h ⊢
  obtain ⟨hx, hy, hs, hsp, he, hm, ht, htr, hsd, hsa, hra⟩ :=
    reproduceStage_child_fields _ st.timeScale _ c h
  have hg : geomEq p
      (decayStage (feedStage st
        (depositStage st st.environment
          (wrapStage st (moveStage M st (steerStage M st (stressStage st p) g).1)))
        (wrapStage st (moveStage M st (steerStage M st (stressStage st p) g).1))).1) := by
    refine geomEq_trans (stress_geom st p) ?_
    refine geomEq_trans (steer_geom M st (stressStage st p) g) ?_
    refine geomEq_trans (move_geom M st _) ?_
    refine geomEq_trans (wrap_geom st _) ?_
    refine geomEq_trans (feed_geom st
      (depositStage st st.environment
        (wrapStage st (moveStage M st (steerStage M st (stressStage st p) g).1))) _) ?_
    exact decay_geom _
  refine ⟨he, ?_, ?_, ?_, ?_⟩
  · rw [hx, rep_x]
  · rw [hy, rep_y]
  · rw [hs, rep_speed]
  · exact geomEq_trans hg
      ⟨hsp.symm, hm.symm, ht.symm, htr.symm, hsd.symm, hsa.symm, hra.symm⟩

theorem stepAt_width (M : MathF) (st : SlimeMold) (i : ℕ) (h : i < st.particles.length)
    (g : RNG) : (stepAt M st i h g).1.width = st.width := rfl

theorem stepAt_height (M : MathF) (st : SlimeMold) (i : ℕ) (h : i < st.particles.length)
    (g : RNG) : (stepAt M st i h g).1.height = st.height := rfl

theorem stepAt_timeScale (M : MathF) (st : SlimeMold) (i : ℕ) (h : i < st.particles.length)
    (g : RNG) : (stepAt M st i h g).1.timeScale = st.timeScale := rfl

theorem stepAt_env (M : MathF) (st : SlimeMold) (i : ℕ) (h : i < st.particles.length)
    (g : RNG) : (stepAt M st i h g).1.environment =
      (processParticle M st (st.particles.get ⟨i, h⟩) g).environment := rfl

theorem stepAt_mem (M : MathF) (st : SlimeMold) (i : ℕ) (h : i < st.particles.length)
    (g : RNG) (p : Particle) (hp : p ∈ (stepAt M st i h g).1.particles) :
    p ∈ st.particles ∨ p = (processParticle M st (st.particles.get ⟨i, h⟩) g).particle ∨
      (processParticle M st (st.particles.get ⟨i, h⟩) g).child = some p := by
  unfold stepAt at hp
  dsimp only at hp
  cases hc : (processParticle M st (st.particles.get ⟨i, h⟩) g).child with
  | none =>
    rw [hc] at hp
    dsimp only at hp
    rcases List.mem_or_eq_of_mem_set hp with h1 | h2
    · exact Or.inl h1
    · exact Or.inr (Or.inl h2)
  | some c =>
    rw [hc] at hp
    dsimp only at hp
    rcases List.mem_append.mp hp with h1 | h2
    · rcases List.mem_or_eq_of_mem_set h1 with ha | hb
      · exact Or.inl ha
      · exact Or.inr (Or.inl hb)
    · have hpc : p = c := by simpa using h2
      subst hpc
      exact Or.inr (Or.inr rfl)

theorem updateLoop_inv (M : MathF) (Inv : SlimeMold → Prop)
    (hstep : ∀ st i (h : i < st.particles.length) g, Inv st → Inv (stepAt M st i h g).1) :
    ∀ fuel i st g, Inv st → Inv (updateLoop M fuel i st g).1 := by
  intro fuel
  induction fuel with
  | zero => intro i st g hI; exact hI
  | succ n ih =>
    intro i st g hI
    rw [updateLoop]
    split
    · exact ih _ _ _ (hstep _ _ _ _ hI)
    · exact hI

theorem updateLoop_width (M : MathF) (fuel i : ℕ) (st : SlimeMold) (g : RNG) :
    (updateLoop M fuel i st g).1.width = st.width :=
  updateLoop_inv M (fun s => s.width = st.width)
    (fun st' i' h' g' hI => by show (stepAt M st' i' h' g').1.width = st.width; rw [stepAt_width]; exact hI) fuel i st g rfl

theorem updateLoop_height (M : MathF) (fuel i : ℕ) (st : SlimeMold) (g : RNG) :
    (updateLoop M fuel i st g).1.height = st.height :=
  updateLoop_inv M (fun s => s.height = st.height)
    (fun st' i' h' g' hI => by show (stepAt M st' i' h' g').1.height = st.height; rw [stepAt_height]; exact hI) fuel i st g rfl

theorem update_particles (M : MathF) (t : ℚ) (st : SlimeMold) (g : RNG) :
    (SlimeMold.update M t st g).1.particles =
      ((updateLoop M (2 * st.particles.length + 1) 0 st g).1.particles).filter
        (fun p => decide (p.energy > 0)) := rfl

theorem update_env_eq (M : MathF) (t : ℚ) (st : SlimeMold) (g : RNG) :
    (SlimeMold.update M t st g).1.environment =
      Environment.update M t
        (updateLoop M (2 * st.particles.length + 1) 0 st g).1.environment := rfl

theorem update_width (M : MathF) (t : ℚ) (st : SlimeMold) (g : RNG) :
    (SlimeMold.update M t st g).1.width = st.width :=
  updateLoop_width M (2 * st.particles.length + 1) 0 st g

theorem update_height (M : MathF) (t : ℚ) (st : SlimeMold) (g : RNG) :
    (SlimeMold.update M t st g).1.height = st.height :=
  updateLoop_height M (2 * st.particles.length + 1) 0 st g

theorem stepAt_energy (M : MathF) (st : SlimeMold) (i : ℕ) (h : i < st.particles.length)
    (g : RNG) (hI : ∀ p ∈ st.particles, p.energy ≤ 100) :
    ∀ p ∈ (stepAt M st i h g).1.particles, p.energy ≤ 100 := by
  intro p hp
  rcases stepAt_mem M st i h g p hp with h1 | h2 | h3
  · exact hI p h1
  · subst h2
    exact processParticle_energy_le M st _ g (hI _ (List.get_mem _ _ _))
  · rw [(processParticle_child M st _ g p h3).1]
    norm_num

theorem stepAt_envBounds (M : MathF) (st : SlimeMold) (i : ℕ)
    (h : i < st.particles.length) (g : RNG)
    (hI : envBounds st.environment ∧ ∀ p ∈ st.particles, 0 ≤ p.trail_strength) :
    envBounds (stepAt M st i h g).1.environment ∧
      ∀ p ∈ (stepAt M st i h g).1.particles, 0 ≤ p.trail_strength := by
  obtain ⟨he, ht⟩ := hI
  constructor
  · rw [stepAt_env]
    exact processParticle_env_bounds M st _ g he (ht _ (List.get_mem _ _ _))
  · intro p hp
    rcases stepAt_mem M st i h g p hp with h1 | h2 | h3
    · exact ht p h1
    · subst h2
      have hg := processParticle_geom M st (st.particles.get ⟨i, h⟩) g
      rw [← hg.2.2.2.1]
      exact ht _ (List.get_mem _ _ _)
    · have hg := (processParticle_child M st _ g p h3).2.2.2.2
      rw [← hg.2.2.2.1]
      exact ht _ (List.get_mem _ _ _)

theorem stepAt_rate (M : MathF) (st : SlimeMold) (i : ℕ) (h : i < st.particles.length)
    (g : RNG) (d : ℚ) (hI : st.environment.pheromone_decay_rate = d) :
    (stepAt M st i h g).1.environment.pheromone_decay_rate = d := by
  rw [stepAt_env, processParticle_rate]
  exact hI

theorem stepAt_inRange (M : MathF) (st : SlimeMold) (i : ℕ) (h : i < st.particles.length)
    (g : RNG) (hw : 0 < st.width) (hh : 0 < st.height)
    (hI : ∀ p ∈ st.particles, inRange st.width st.height p) :
    ∀ p ∈ (stepAt M st i h g).1.particles, inRange st.width st.height p := by
  intro p hp
  rcases stepAt_mem M st i h g p hp with h1 | h2 | h3
  · exact hI p h1
  · subst h2
    exact processParticle_pos M st _ g hw hh
  · obtain ⟨_, hx, hy, _, _⟩ := processParticle_child M st _ g p h3
    have hpp := processParticle_pos M st (st.particles.get ⟨i, h⟩) g hw hh
    unfold inRange at hpp ⊢
    rw [hx, hy]
    exact hpp

theorem pyMod_lt (i : ℤ) (n : ℕ) (h : 0 < n) : pyMod i n < n := by
  unfold pyMod
  have hn : (0 : ℤ) < (n : ℤ) := by exact_mod_cast h
  have h1 := Int.emod_lt_of_pos i hn
  have h2 := Int.emod_nonneg i (by omega : (n : ℤ) ≠ 0)
  omega

theorem pyInt_natCast (n : ℕ) : pyInt ((n : ℕ) : ℚ) = n := by
  unfold pyInt
  rw [if_pos (by positivity)]
  exact_mod_cast Int.floor_natCast n

theorem pyMod_cast_self (m n : ℕ) (h : m < n) : pyMod ((m : ℕ) : ℤ) n = m := by
  unfold pyMod
  rw [Int.emod_eq_of_lt (by positivity) (by exact_mod_cast h)]
  exact Int.toNat_natCast m

theorem is_obstacle_idem (st : SlimeMold) (x y : ℚ) (hw : 0 < st.width)
    (hh : 0 < st.height) :
    st.is_obstacle ((pyMod (pyInt x) st.width : ℕ) : ℚ)
      ((pyMod (pyInt y) st.height : ℕ) : ℚ) = st.is_obstacle x y := by
  unfold SlimeMold.is_obstacle
  rw [pyInt_natCast, pyInt_natCast, pyMod_cast_self _ _ (pyMod_lt _ _ hw),
    pyMod_cast_self _ _ (pyMod_lt _ _ hh)]

theorem spawnParticle_fields (M : MathF) (w h : ℕ) (sp : Species) (g : RNG) :
    (spawnParticle M w h sp g).1.species = sp ∧
    (spawnParticle M w h sp g).1.sensor_angle = mathPi / 4 ∧
    (spawnParticle M w h sp g).1.rotation_angle = mathPi / 8 :=
  ⟨rfl, rfl, rfl⟩

theorem spawnParticle_stream (M : MathF) (w h : ℕ) (sp : Species) (g : RNG) :
    (spawnParticle M w h sp g).2.stream = g.stream := rfl

theorem spawnParticles_stream (M : MathF) (w h : ℕ) (sp : Species) :
    ∀ (n : ℕ) (g : RNG), (spawnParticles M w h sp n g).2.stream = g.stream := by
  intro n
  induction n with
  | zero => intro g; rfl
  | succ m ih =>
    intro g
    rw [spawnParticles]
    exact ih (spawnParticle M w h sp g).2

theorem spawnParticles_mem (M : MathF) (w h : ℕ) (sp : Species) :
    ∀ (n : ℕ) (g : RNG), ∀ p ∈ (spawnParticles M w h sp n g).1,
      p.species = sp ∧ p.sensor_angle = mathPi / 4 ∧ p.rotation_angle = mathPi / 8 := by
  intro n
  induction n with
  | zero => intro g p hp; simp [spawnParticles] at hp
  | succ m ih =>
    intro g p hp
    rw [spawnParticles] at hp
    rcases List.mem_cons.mp hp with h1 | h2
    · subst h1
      exact spawnParticle_fields M w h sp g
    · exact ih _ p h2

theorem spawnParticles_length (M : MathF) (w h : ℕ) (sp : Species) :
    ∀ (n : ℕ) (g : RNG), (spawnParticles M w h sp n g).1.length = n := by
  intro n
  induction n with
  | zero => intro g; rfl
  | succ m ih =>
    intro g
    rw [spawnParticles]
    simp [ih]

theorem centre_disk_bound (d r c bound : ℚ) (hd1 : 50 ≤ d) (hd2 : d + 50 ≤ bound)
    (hr0 : 0 ≤ r) (hr1 : r < 50) (hc : |c| ≤ 1) :
    0 ≤ d + r * c ∧ d + r * c < bound := by
  rcases abs_le.mp hc with ⟨h1, h2⟩
  have ha : r * c ≤ r := by nlinarith
  have hb : -r ≤ r * c := by nlinarith
  constructor <;> linarith

theorem spawnParticle_inRange (M : MathF) (w h : ℕ) (sp : Species) (g : RNG)
    (hw : 100 ≤ w) (hh : 100 ≤ h)
    (hr : ∀ k, 0 ≤ g.stream k ∧ g.stream k < 1)
    (hc : ∀ q, |M.cos q| ≤ 1) (hs : ∀ q, |M.sin q| ≤ 1) :
    inRange w h (spawnParticle M w h sp g).1 := by
  have hwq1 : (50 : ℚ) ≤ ((w / 2 : ℕ) : ℚ) := by exact_mod_cast (by omega : 50 ≤ w / 2)
  have hwq2 : ((w / 2 : ℕ) : ℚ) + 50 ≤ (w : ℚ) := by
    exact_mod_cast (by omega : w / 2 + 50 ≤ w)
  have hhq1 : (50 : ℚ) ≤ ((h / 2 : ℕ) : ℚ) := by exact_mod_cast (by omega : 50 ≤ h / 2)
  have hhq2 : ((h / 2 : ℕ) : ℚ) + 50 ≤ (h : ℚ) := by
    exact_mod_cast (by omega : h / 2 + 50 ≤ h)
  have hr0 := (hr (g.idx + 1)).1
  have hr1 := (hr (g.idx + 1)).2
  have hrad0 : 0 ≤ (0 : ℚ) + (50 - 0) * g.stream (g.idx + 1) := by nlinarith
  have hrad1 : (0 : ℚ) + (50 - 0) * g.stream (g.idx + 1) < 50 := by nlinarith
  have hx := centre_disk_bound ((w / 2 : ℕ) : ℚ)
    ((0 : ℚ) + (50 - 0) * g.stream (g.idx + 1))
    (M.cos (0 + (2 * mathPi - 0) * g.stream g.idx)) (w : ℚ)
    hwq1 hwq2 hrad0 hrad1 (hc _)
  have hy := centre_disk_bound ((h / 2 : ℕ) : ℚ)
    ((0 : ℚ) + (50 - 0) * g.stream (g.idx + 1))
    (M.sin (0 + (2 * mathPi - 0) * g.stream g.idx)) (h : ℚ)
    hhq1 hhq2 hrad0 hrad1 (hs _)
  exact ⟨hx.1, hx.2, hy.1, hy.2⟩

theorem spawnParticles_inRange (M : MathF) (w h : ℕ) (sp : Species)
    (hw : 100 ≤ w) (hh : 100 ≤ h)
    (hc : ∀ q, |M.cos q| ≤ 1) (hs : ∀ q, |M.sin q| ≤ 1) :
    ∀ (n : ℕ) (g : RNG), (∀ k, 0 ≤ g.stream k ∧ g.stream k < 1) →
      ∀ p ∈ (spawnParticles M w h sp n g).1, inRange w h p := by
  intro n
  induction n with
  | zero => intro g hr p hp; simp [spawnParticles] at hp
  | succ m ih =>
    intro g hr p hp
    rw [spawnParticles] at hp
    rcases List.mem_cons.mp hp with h1 | h2
    · subst h1
      exact spawnParticle_inRange M w h sp g hw hh hr hc hs
    · refine ih (spawnParticle M w h sp g).2 ?_ p h2
      rw [spawnParticle_stream]
      exact hr

theorem countIn_append (l1 l2 : List Particle) (sp : Species) :
    speciesCountIn (l1 ++ l2) sp = speciesCountIn l1 sp + speciesCountIn l2 sp := by
  unfold speciesCountIn
  rw [List.filter_append, List.length_append]

theorem count_of_uniform (l : List Particle) (s sp : Species)
    (h : ∀ p ∈ l, p.species = s) :
    speciesCountIn l sp = if s = sp then l.length else 0 := by
  unfold speciesCountIn
  by_cases hd : s = sp
  · subst hd
    rw [if_pos rfl, List.filter_eq_self.mpr]
    intro a ha
    simpa using h a ha
  · rw [if_neg hd]
    have he : l.filter (fun p => decide (p.species = sp)) = [] := by
      rw [List.filter_eq_nil_iff]
      intro a ha
      simp [h a ha, hd]
    rw [he]
    rfl

theorem countIn_spawn (M : MathF) (w h : ℕ) (s sp : Species) (n : ℕ) (g : RNG) :
    speciesCountIn (spawnParticles M w h s n g).1 sp = if s = sp then n else 0 := by
  rw [count_of_uniform _ s sp (fun p hp => (spawnParticles_mem M w h s n g p hp).1),
    spawnParticles_length]

theorem othersOf_append (l1 l2 : List Particle) (sp : Species) :
    othersOf (l1 ++ l2) sp = othersOf l1 sp ++ othersOf l2 sp := by
  unfold othersOf
  rw [List.filter_append]

theorem othersOf_spawn (M : MathF) (w h : ℕ) (sp : Species) (n : ℕ) (g : RNG) :
    othersOf (spawnParticles M w h sp n g).1 sp = [] := by
  unfold othersOf
  rw [List.filter_eq_nil_iff]
  intro a ha
  simp [(spawnParticles_mem M w h sp n g a ha).1]

theorem toggle_off (M : MathF) (sim : SlimeMoldSimulator) (sp : Species) (g : RNG)
    (hact : sim.active_species sp = true) :
    (toggle_species M sim sp g).1 =
      { slime := { sim.slime with particles := sim.slime.particles.filter (fun p =>
          if p.species = sp then !sim.active_species sp
          else sim.active_species p.species) },
        active_species := fun s => if s = sp then !sim.active_species sp
                                   else sim.active_species s } ∧
    (toggle_species M sim sp g).2 = g := by
  unfold toggle_species
  dsimp only
  rw [if_neg (by simp [hact])]
  exact ⟨rfl, rfl⟩

theorem toggle_on (M : MathF) (sim : SlimeMoldSimulator) (sp : Species) (g : RNG)
    (hact : sim.active_species sp = false) :
    (toggle_species M sim sp g).1 =
      { slime := { sim.slime with particles := (sim.slime.particles.filter (fun p =>
          if p.species = sp then !sim.active_species sp
          else sim.active_species p.species)) ++
          (spawnParticles M sim.slime.width sim.slime.height sp (speciesCount sp) g).1 },
        active_species := fun s => if s = sp then !sim.active_species sp
                                   else sim.active_species s } := by
  unfold toggle_species
  dsimp only
  rw [if_pos (by simp [hact])]

theorem countIn_nil (sp : Species) : speciesCountIn [] sp = 0 := rfl

/-- Claim C7: for a species `sp` that is active and a store containing only
particles of active species, deactivating `sp` and then reactivating it (two
calls to `toggle_species`) leaves exactly `species_params[sp]['count']` live
particles of species `sp`, the first call removes all of them, and the
sequence of particles of every other species is unaffected by both calls. -/
theorem C7_toggle_idempotence (M : MathF) (sim : SlimeMoldSimulator) (sp : Species)
    (g1 g2 : RNG) (hact : sim.active_species sp = true)
    (hall : ∀ p ∈ sim.slime.particles, sim.active_species p.species = true) :
    speciesCountIn
        (toggle_species M (toggle_species M sim sp g1).1 sp g2).1.slime.particles sp =
      speciesCount sp ∧
    speciesCountIn (toggle_species M sim sp g1).1.slime.particles sp = 0 ∧
    othersOf (toggle_species M sim sp g1).1.slime.particles sp =
      othersOf sim.slime.particles sp ∧
    othersOf (toggle_species M (toggle_species M sim sp g1).1 sp g2).1.slime.particles sp =
      othersOf sim.slime.particles sp := by
  obtain ⟨h1, -⟩ := toggle_off M sim sp g1 hact
  set s1 := (toggle_species M sim sp g1).1 with hs1
  have hfilter : s1.slime.particles = othersOf sim.slime.particles sp := by
    rw [h1]
    dsimp only
    unfold othersOf
    apply List.filter_congr
    intro a ha
    by_cases hsp : a.species = sp
    · simp [hsp, hact]
    · simp [hsp, hall a ha]
  have hs1act : s1.active_species sp = false := by
    rw [h1]
    simp [hact]
  have hs1actOther : ∀ s, s ≠ sp → s1.active_species s = sim.active_species s := by
    intro s hs
    rw [h1]
    simp [hs]
  have hmem1 : ∀ p ∈ s1.slime.particles, p.species ≠ sp := by
    intro p hp
    rw [hfilter] at hp
    unfold othersOf at hp
    simpa using (List.mem_filter.mp hp).2
  have hsub1 : ∀ p ∈ s1.slime.particles, p ∈ sim.slime.particles := by
    intro p hp
    rw [hfilter] at hp
    exact (List.mem_filter.mp hp).1
  have hcount1 : speciesCountIn s1.slime.particles sp = 0 := by
    unfold speciesCountIn
    have he : s1.slime.particles.filter (fun p => decide (p.species = sp)) = [] := by
      rw [List.filter_eq_nil_iff]
      intro a ha
      simp [hmem1 a ha]
    rw [he]
    rfl
  have hothers1 : othersOf s1.slime.particles sp = othersOf sim.slime.particles sp := by
    rw [hfilter]
    unfold othersOf
    apply List.filter_eq_self.mpr
    intro a ha
    have := (List.mem_filter.mp ha).2
    simpa using this
  have h2 := toggle_on M s1 sp g2 hs1act
  have hkept2 : s1.slime.particles.filter (fun p =>
      if p.species = sp then !s1.active_species sp
      else s1.active_species p.species) = s1.slime.particles := by
    apply List.filter_eq_self.mpr
    intro a ha
    have hne := hmem1 a ha
    rw [if_neg hne, hs1actOther _ hne]
    exact hall a (hsub1 a ha)
  refine ⟨?_, ?_, ?_, ?_⟩
  · rw [h2]
    dsimp only
    rw [hkept2, countIn_append, countIn_spawn, if_pos rfl, hcount1]
    omega
  · exact hcount1
  · exact hothers1
  · rw [h2]
    dsimp only
    rw [hkept2, othersOf_append, othersOf_spawn, hothers1, List.append_nil]

/-- Claim C8: `reset_simulation` clears all particles and regenerates the
configured initial count for each currently active species only (zero
particles for inactive species, and every particle in the new store belongs
to an active species), while the `Environment` record — all five fields and
the three rates — is left untouched. -/
theorem C8_reset_frame (M : MathF) (sim : SlimeMoldSimulator) (g : RNG) :
    (reset_simulation M sim g).1.slime.environment = sim.slime.environment ∧
    (∀ sp, speciesCountIn (reset_simulation M sim g).1.slime.particles sp =
      if sim.active_species sp then speciesCount sp else 0) ∧
    (∀ p ∈ (reset_simulation M sim g).1.slime.particles,
      sim.active_species p.species = true) := by
  refine ⟨rfl, ?_, ?_⟩
  · intro sp
    unfold reset_simulation
    dsimp only
    rw [countIn_append, countIn_append]
    by_cases h1 : sim.active_species Species.PHYSARUM = true <;>
      by_cases h2 : sim.active_species Species.DICTYOSTELIUM = true <;>
        by_cases h3 : sim.active_species Species.FULIGO = true <;>
          cases sp <;>
            simp [h1, h2, h3, countIn_spawn, speciesCount, countIn_nil]
  · intro p hp
    unfold reset_simulation at hp
    dsimp only at hp
    rcases List.mem_append.mp hp with ha | hbc
    · split at ha
      · rw [(spawnParticles_mem M _ _ _ _ _ p ha).1]
        assumption
      · simp at ha
    · rcases List.mem_append.mp hbc with hb | hc
      · split at hb
        · rw [(spawnParticles_mem M _ _ _ _ _ p hb).1]
          assumption
        · simp at hb
      · split at hc
        · rw [(spawnParticles_mem M _ _ _ _ _ p hc).1]
          assumption
        · simp at hc

/-- Claim C10: every particle created by initialization, by species
reactivation in `toggle_species`, or by `reset_simulation` gets sensor
half-angle exactly `math.pi / 4` and turn increment exactly `math.pi / 8`,
for every species alike — these two values are literals at the three
construction sites, not entries of the per-species parameter table. -/
theorem C10_fixed_sensor_geometry (M : MathF) (w h : ℕ) (g1 g2 g3 : RNG)
    (sim : SlimeMoldSimulator) (sp : Species) :
    (∀ p ∈ (init_particles M w h g1).1,
        p.sensor_angle = mathPi / 4 ∧ p.rotation_angle = mathPi / 8) ∧
    (∀ p ∈ (toggle_species M sim sp g2).1.slime.particles,
        p ∈ sim.slime.particles ∨
          (p.sensor_angle = mathPi / 4 ∧ p.rotation_angle = mathPi / 8)) ∧
    (∀ p ∈ (reset_simulation M sim g3).1.slime.particles,
        p.sensor_angle = mathPi / 4 ∧ p.rotation_angle = mathPi / 8) := by
  refine ⟨?_, ?_, ?_⟩
  · intro p hp
    unfold init_particles at hp
    dsimp only at hp
    rcases List.mem_append.mp hp with ha | hbc
    · exact (spawnParticles_mem M _ _ _ _ _ p ha).2
    · rcases List.mem_append.mp hbc with hb | hc
      · exact (spawnParticles_mem M _ _ _ _ _ p hb).2
      · exact (spawnParticles_mem M _ _ _ _ _ p hc).2
  · intro p hp
    by_cases hb : sim.active_species sp = true
    · obtain ⟨ht, -⟩ := toggle_off M sim sp g2 hb
      rw [ht] at hp
      dsimp only at hp
      exact Or.inl (List.mem_filter.mp hp).1
    · have hb2 : sim.active_species sp = false := by
        cases hx : sim.active_species sp
        · rfl
        · exact absurd hx hb
      rw [toggle_on M sim sp g2 hb2] at hp
      dsimp only at hp
      rcases List.mem_append.mp hp with hk | hn
      · exact Or.inl (List.mem_filter.mp hk).1
      · exact Or.inr (spawnParticles_mem M _ _ _ _ _ p hn).2
  · intro p hp
    unfold reset_simulation at hp
    dsimp only at hp
    rcases List.mem_append.mp hp with ha | hbc
    · split at ha
      · exact (spawnParticles_mem M _ _ _ _ _ p ha).2
      · simp at ha
    · rcases List.mem_append.mp hbc with hb | hc
      · split at hb
        · exact (spawnParticles_mem M _ _ _ _ _ p hb).2
        · simp at hb
      · split at hc
        · exact (spawnParticles_mem M _ _ _ _ _ p hc).2
        · simp at hc

/-- Claim C3: for every probe point, `get_sensor_value` returns exactly `-1`
when the probe cell is an obstacle and a value `≥ 0` otherwise (the food
branch is positive for `energy ≤ 100`, the pheromone branch non-negative for
non-negative stored pheromone); consequently, under the shared base steering
rule, the direction finally selected (`keep front` / `turn left` /
`turn right`) never has the obstacle sentinel as its value when at least one
of the three probes is a non-obstacle. -/
theorem C3_obstacle_sentinel_minimum (st : SlimeMold) (x y : ℚ) (p : Particle)
    (hw : 0 < st.width) (hh : 0 < st.height) (hE : p.energy ≤ 100)
    (hP : ∀ a b : ℕ, 0 ≤ st.environment.pheromone_map a b) :
    (st.is_obstacle x y = true → st.get_sensor_value x y p = -1) ∧
    (st.is_obstacle x y = false → 0 ≤ st.get_sensor_value x y p) ∧
    (∀ f l r : ℚ, (f = -1 ∨ 0 ≤ f) → (l = -1 ∨ 0 ≤ l) → (r = -1 ∨ 0 ≤ r) →
      ¬(f = -1 ∧ l = -1 ∧ r = -1) →
      ((baseDir f l r = Dir.front → 0 ≤ f) ∧
       (baseDir f l r = Dir.left → 0 ≤ l) ∧
       (baseDir f l r = Dir.right → 0 ≤ r))) := by
  refine ⟨?_, ?_, ?_⟩
  · intro hobs
    unfold SlimeMold.get_sensor_value
    dsimp only
    rw [is_obstacle_idem st x y hw hh, hobs]
    rfl
  · intro hobs
    unfold SlimeMold.get_sensor_value
    dsimp only
    rw [is_obstacle_idem st x y hw hh, hobs]
    rw [if_neg (by simp)]
    split
    · rename_i hfood
      have hhunger : (1 : ℚ) ≤ 1 + (100 - p.energy) / 20 := by linarith
      nlinarith
    · exact mul_nonneg (hP _ _) (by norm_num)
  · intro f l r hf hl hr hne
    unfold baseDir
    split_ifs with h1 h2
    · refine ⟨?_, ?_, ?_⟩
      · intro _
        rcases hf with hf1 | hf2
        · subst hf1
          rcases hl with hl1 | hl2
          · subst hl1
            exact absurd h1.1 (lt_irrefl _)
          · exact absurd h1.1 (by linarith)
        · exact hf2
      · intro hab
        exact absurd hab (by decide)
      · intro hab
        exact absurd hab (by decide)
    · refine ⟨?_, ?_, ?_⟩
      · intro hab
        exact absurd hab (by decide)
      · intro _
        rcases hl with hl1 | hl2
        · subst hl1
          rcases hr with hr1 | hr2
          · subst hr1
            exact absurd h2 (lt_irrefl _)
          · exact absurd h2 (by linarith)
        · exact hl2
      · intro hab
        exact absurd hab (by decide)
    · refine ⟨?_, ?_, ?_⟩
      · intro hab
        exact absurd hab (by decide)
      · intro hab
        exact absurd hab (by decide)
      · intro _
        rcases hr with hr1 | hr2
        · subst hr1
          have hle : l ≤ -1 := le_of_not_lt h2
          rcases hl with hl1 | hl2
          · subst hl1
            rcases hf with hf1 | hf2
            · subst hf1
              exact absurd ⟨rfl, rfl, rfl⟩ hne
            · exact absurd ⟨by linarith, by linarith⟩ h1
          · exact absurd (by linarith : l < l) (lt_irrefl l)
        · exact hr2

/-- Claim C4: if every particle entering a call to `SlimeMold.update` has
energy at most `100`, then every particle remaining in the store after the
call satisfies `0 < energy ≤ 100` (hence `0 ≤ energy ≤ 100`), and a
particle is kept in the store exactly when its post-tick energy is strictly
positive, i.e. it is removed exactly when the energy has dropped to or below
`0` — the filter runs once, at the end of the sub-step, so a removed particle
is never processed again. -/
theorem C4_energy_bounds_and_death_filter (M : MathF) (time : ℚ) (st : SlimeMold)
    (g : RNG) (h : ∀ p ∈ st.particles, p.energy ≤ 100) :
    (∀ p ∈ (SlimeMold.update M time st g).1.particles,
        0 < p.energy ∧ p.energy ≤ 100) ∧
    (∀ p : Particle, p ∈ (SlimeMold.update M time st g).1.particles ↔
        p ∈ (updateLoop M (2 * st.particles.length + 1) 0 st g).1.particles ∧
          0 < p.energy) := by
  have hloop : ∀ p ∈ (updateLoop M (2 * st.particles.length + 1) 0 st g).1.particles,
      p.energy ≤ 100 :=
    updateLoop_inv M (fun s => ∀ p ∈ s.particles, p.energy ≤ 100)
      (fun st' i' h' g' hI => stepAt_energy M st' i' h' g' hI) _ 0 st g h
  constructor
  · intro p hp
    rw [update_particles, List.mem_filter] at hp
    refine ⟨by simpa using hp.2, hloop p hp.1⟩
  · intro p
    rw [update_particles, List.mem_filter]
    simp

/-- Claim C5: `0 ≤ pheromone ≤ 1` and `0 ≤ food ≤ 1` hold at every cell
after construction (`Environment.init`, for any noise oracle), are preserved
by a full `SlimeMold.update` call (which performs every trail deposit, food
consumption and the decay/forcing tick of the sub-step) whenever the
particles' trail strengths are non-negative and the stored decay rate lies
in `[0, 1]`, and are preserved by the external food-deposit event. -/
theorem C5_field_bounds (M : MathF) (snoise : ℚ → ℚ → ℕ → ℚ) (time : ℚ)
    (st : SlimeMold) (g : RNG) (x y : ℕ)
    (ht : ∀ p ∈ st.particles, 0 ≤ p.trail_strength)
    (hd0 : 0 ≤ st.environment.pheromone_decay_rate)
    (hd1 : st.environment.pheromone_decay_rate ≤ 1)
    (he : envBounds st.environment) :
    envBounds (Environment.init snoise) ∧
    envBounds (SlimeMold.update M time st g).1.environment ∧
    envBounds (depositFood st x y).environment := by
  refine ⟨?_, ?_, ?_⟩
  · intro a b
    unfold Environment.init
    dsimp only
    refine ⟨⟨le_refl 0, by norm_num⟩, ?_⟩
    split
    · norm_num
    · norm_num
  · have hloop := updateLoop_inv M
      (fun s => (envBounds s.environment ∧ ∀ p ∈ s.particles, 0 ≤ p.trail_strength) ∧
        s.environment.pheromone_decay_rate = st.environment.pheromone_decay_rate)
      (fun st' i' h' g' hI =>
        ⟨stepAt_envBounds M st' i' h' g' hI.1, stepAt_rate M st' i' h' g' _ hI.2⟩)
      (2 * st.particles.length + 1) 0 st g ⟨⟨he, ht⟩, rfl⟩
    obtain ⟨⟨hB, -⟩, hR⟩ := hloop
    rw [update_env_eq]
    intro a b
    unfold Environment.update
    dsimp only
    have hb := hB a b
    rw [hR]
    exact ⟨⟨mul_nonneg hb.1.1 hd0, mul_le_one₀ hb.1.2 hd0 hd1⟩, hb.2⟩
  · intro a b
    unfold depositFood
    dsimp only
    refine ⟨(he a b).1, ?_⟩
    dsimp only [updMap]
    split
    · norm_num
    · exact (he a b).2

/-- Claim C6: positions are wrapped modulo width/height unconditionally at
the end of the movement step (covering both the moved and the
obstacle-reflected case), so starting from any store whose particles lie in
`[0, width) × [0, height)`, after any number of `SlimeMold.update` calls
every particle still satisfies `0 ≤ x < width ∧ 0 ≤ y < height`; and the
initial population of `initialize_particles` already lies in that domain
(for the generated centre disk, given a grid at least `100 × 100`, draws in
`[0,1)` and `|cos| ≤ 1`, `|sin| ≤ 1`). -/
theorem C6_position_wraparound (M : MathF) (times : ℕ → ℚ) (st : SlimeMold)
    (g gi : RNG) (w h : ℕ) (n : ℕ)
    (hw : 0 < st.width) (hh : 0 < st.height)
    (hstart : ∀ p ∈ st.particles, inRange st.width st.height p)
    (hw100 : 100 ≤ w) (hh100 : 100 ≤ h)
    (hr : ∀ k, 0 ≤ gi.stream k ∧ gi.stream k < 1)
    (hc : ∀ q, |M.cos q| ≤ 1) (hs : ∀ q, |M.sin q| ≤ 1) :
    (∀ p ∈ (updateN M times n (st, g)).1.particles, inRange st.width st.height p) ∧
    (∀ p ∈ (init_particles M w h gi).1, inRange w h p) := by
  constructor
  · have main : ∀ (m : ℕ) (s : SlimeMold × RNG), 0 < s.1.width → 0 < s.1.height →
        (∀ p ∈ s.1.particles, inRange s.1.width s.1.height p) →
        ((updateN M times m s).1.width = s.1.width ∧
          (updateN M times m s).1.height = s.1.height) ∧
        ∀ p ∈ (updateN M times m s).1.particles, inRange s.1.width s.1.height p := by
      intro m
      induction m with
      | zero => intro s hw1 hh1 hI; exact ⟨⟨rfl, rfl⟩, hI⟩
      | succ k ih =>
        intro s hw1 hh1 hI
        rw [updateN]
        set s2 := SlimeMold.update M (times k) s.1 s.2 with hs2
        have hwidth : s2.1.width = s.1.width := update_width M (times k) s.1 s.2
        have hheight : s2.1.height = s.1.height := update_height M (times k) s.1 s.2
        have hloop : ∀ p ∈ (updateLoop M (2 * s.1.particles.length + 1) 0 s.1 s.2).1.particles,
            inRange s.1.width s.1.height p := by
          refine updateLoop_inv M
            (fun t => t.width = s.1.width ∧ t.height = s.1.height ∧
              ∀ p ∈ t.particles, inRange s.1.width s.1.height p)
            ?_ (2 * s.1.particles.length + 1) 0 s.1 s.2 ⟨rfl, rfl, hI⟩ |>.2.2
          intro st' i' h' g' hI'
          obtain ⟨e1, e2, hp⟩ := hI'
          refine ⟨?_, ?_, ?_⟩
          · show (stepAt M st' i' h' g').1.width = s.1.width
            rw [stepAt_width]
            exact e1
          · show (stepAt M st' i' h' g').1.height = s.1.height
            rw [stepAt_height]
            exact e2
          · have hin := stepAt_inRange M st' i' h' g'
              (by rw [e1]; exact hw1) (by rw [e2]; exact hh1)
              (by rw [e1, e2]; exact hp)
            rw [e1, e2] at hin
            exact hin
        have hup : ∀ p ∈ s2.1.particles, inRange s.1.width s.1.height p := by
          intro p hp
          rw [hs2, update_particles, List.mem_filter] at hp
          exact hloop p hp.1
        have hrec := ih s2 (by rw [hwidth]; exact hw1) (by rw [hheight]; exact hh1)
          (by rw [hwidth, hheight]; exact hup)
        refine ⟨⟨hrec.1.1.trans hwidth, hrec.1.2.trans hheight⟩, ?_⟩
        intro p hp
        have := hrec.2 p hp
        rw [hwidth, hheight] at this
        exact this
    exact (main n (st, g) hw hh hstart).2
  · intro p hp
    unfold init_particles at hp
    dsimp only at hp
    rcases List.mem_append.mp hp with ha | hbc
    · exact spawnParticles_inRange M w h Species.PHYSARUM hw100 hh100 hc hs _ gi hr p ha
    · rcases List.mem_append.mp hbc with hb | hcc
      · refine spawnParticles_inRange M w h Species.DICTYOSTELIUM hw100 hh100 hc hs _ _ ?_ p hb
        rw [spawnParticles_stream]
        exact hr
      · refine spawnParticles_inRange M w h Species.FULIGO hw100 hh100 hc hs _ _ ?_ p hcc
        rw [spawnParticles_stream, spawnParticles_stream]
        exact hr

theorem updateLoop_cons (M : MathF) (fuel i : ℕ) (st : SlimeMold) (g : RNG)
    (h : i < st.particles.length) :
    updateLoop M (fuel + 1) i st g =
      updateLoop M fuel (i + 1) (stepAt M st i h g).1 (stepAt M st i h g).2 := by
  rw [updateLoop, dif_pos h]

theorem updateLoop_stop (M : MathF) (fuel i : ℕ) (st : SlimeMold) (g : RNG)
    (h : ¬ i < st.particles.length) :
    updateLoop M (fuel + 1) i st g = (st, g) := by
  rw [updateLoop, dif_neg h]

theorem int_toNat_lit (n : ℕ) : (no_index (OfNat.ofNat n) : ℤ).toNat = OfNat.ofNat n :=
  Int.toNat_natCast n

set_option maxHeartbeats 2000000 in
theorem eval_stepA_parent :
    processParticle mEx stA parA rngZero = ⟨stepA1, envA1, some childA, gA2⟩ := by
  unfold processParticle stressStage steerStage sensorVals moveStage wrapStage depositStage
    feedStage decayStage reproduceStage stressOf SlimeMold.get_sensor_value SlimeMold.is_obstacle
  norm_num [stA, envA, parA, mEx, cosEx, sinEx, rngZero, mathPi, pyInt, pyMod, pyFMod, npIdx,
    updMap, RNG.next, RNG.uniform, baseTurn, baseDir, stepA1, envA1, childA, gA2,
    int_toNat_lit, StepOut.mk.injEq, Particle.mk.injEq, Environment.mk.injEq]

set_option maxHeartbeats 2000000 in
theorem eval_stepA_child :
    processParticle mEx stA1 childA gA2 = ⟨childA1, envA2, none, gA2⟩ := by
  unfold processParticle stressStage steerStage sensorVals moveStage wrapStage depositStage
    feedStage decayStage reproduceStage stressOf SlimeMold.get_sensor_value SlimeMold.is_obstacle
  norm_num [stA1, stA, envA1, envA, childA, childA1, envA2, mEx, cosEx, sinEx, gA2, mathPi,
    pyInt, pyMod, pyFMod, npIdx, updMap, RNG.next, RNG.uniform, baseTurn, baseDir,
    int_toNat_lit, StepOut.mk.injEq, Particle.mk.injEq, Environment.mk.injEq]

theorem eval_loop_A : updateLoop mEx 3 0 stA rngZero = (stA2, gA2) := by
  have h0 : 0 < stA.particles.length := by simp [stA]
  rw [show (3:ℕ) = 2 + 1 from rfl, updateLoop_cons mEx 2 0 stA rngZero h0]
  have hstep1 : stepAt mEx stA 0 h0 rngZero = (stA1, gA2) := by
    unfold stepAt
    dsimp only
    have hget : stA.particles.get ⟨0, h0⟩ = parA := rfl
    rw [hget, eval_stepA_parent]
    simp [stA, stA1, List.set]
  simp only [hstep1]
  have h1 : (1:ℕ) < stA1.particles.length := by simp [stA1]
  rw [show (2:ℕ) = 1 + 1 from rfl, updateLoop_cons mEx 1 1 stA1 gA2 h1]
  have hstep2 : stepAt mEx stA1 1 h1 gA2 = (stA2, gA2) := by
    unfold stepAt
    dsimp only
    have hget : stA1.particles.get ⟨1, h1⟩ = childA := rfl
    rw [hget, eval_stepA_child]
    simp [stA1, stA2, List.set]
  simp only [hstep2]
  rw [show (1:ℕ) = 0 + 1 from rfl, updateLoop_stop mEx 0 2 stA2 gA2 (by simp [stA2])]

theorem eval_update_A :
    (SlimeMold.update mEx 0 stA rngZero).1.particles = [stepA1, childA1] := by
  unfold SlimeMold.update
  dsimp only
  rw [show 2 * stA.particles.length + 1 = 3 from by simp [stA], eval_loop_A]
  dsimp only
  rw [show stA2.particles = [stepA1, childA1] from rfl]
  norm_num [List.filter_cons, List.filter_nil, stepA1, childA1]

set_option maxHeartbeats 2000000 in
theorem eval_stepB_tick1 :
    processParticle mEx stB parA rngOne = ⟨parB1, envB1, none, gB1⟩ := by
  unfold processParticle stressStage steerStage sensorVals moveStage wrapStage depositStage
    feedStage decayStage reproduceStage stressOf SlimeMold.get_sensor_value SlimeMold.is_obstacle
  norm_num [stB, stA, envB, envA, parA, mEx, cosEx, sinEx, rngOne, mathPi, pyInt, pyMod,
    pyFMod, npIdx, updMap, RNG.next, RNG.uniform, baseTurn, baseDir, parB1, envB1, gB1,
    int_toNat_lit, StepOut.mk.injEq, Particle.mk.injEq, Environment.mk.injEq]
  rw [show |(9:ℚ)/10| = 9/10 from by norm_num]
  norm_num

theorem eval_loop_B1 : updateLoop mEx 3 0 stB rngOne = (stBmid, gB1) := by
  have h0 : 0 < stB.particles.length := by simp [stB, stA]
  rw [show (3:ℕ) = 2 + 1 from rfl, updateLoop_cons mEx 2 0 stB rngOne h0]
  have hstep1 : stepAt mEx stB 0 h0 rngOne = (stBmid, gB1) := by
    unfold stepAt
    dsimp only
    have hget : stB.particles.get ⟨0, h0⟩ = parA := rfl
    rw [hget, eval_stepB_tick1]
    simp [stB, stA, stBmid, List.set]
  simp only [hstep1]
  rw [show (2:ℕ) = 1 + 1 from rfl,
    updateLoop_stop mEx 1 1 stBmid gB1 (by simp [stBmid])]

theorem eval_update_B1 : SlimeMold.update mEx 60 stB rngOne = (stB1, gB1) := by
  unfold SlimeMold.update
  dsimp only
  rw [show 2 * stB.particles.length + 1 = 3 from by simp [stB, stA], eval_loop_B1]
  dsimp only
  rw [show stBmid.particles = [parB1] from rfl,
    show stBmid.environment = envB1 from rfl]
  norm_num [List.filter_cons, List.filter_nil, parB1, stBmid, stB1, stB, stA]

set_option maxHeartbeats 2000000 in
theorem eval_stepB_tick2 :
    processParticle mEx stB1 parB1 gB1 = ⟨parB2, envB2, none, gB2⟩ := by
  unfold processParticle stressStage steerStage sensorVals moveStage wrapStage depositStage
    feedStage decayStage reproduceStage stressOf SlimeMold.get_sensor_value SlimeMold.is_obstacle
  norm_num [stB1, stB, stA, Environment.update, envB1, envB, envA, parB1, parB2, envB2,
    mEx, cosEx, sinEx, gB1, gB2, mathPi, pyInt, pyMod, pyFMod, npIdx, updMap, RNG.next,
    RNG.uniform, baseTurn, baseDir, int_toNat_lit, StepOut.mk.injEq, Particle.mk.injEq,
    Environment.mk.injEq]
  rw [show |(81:ℚ)/100| = 81/100 from by norm_num]
  norm_num

theorem eval_update_B2 :
    (SlimeMold.update mEx 60 stB1 gB1).1.particles = [parB2] := by
  unfold SlimeMold.update
  dsimp only
  have h0 : 0 < stB1.particles.length := by simp [stB1]
  rw [show 2 * stB1.particles.length + 1 = 2 + 1 from by simp [stB1],
    updateLoop_cons mEx 2 0 stB1 gB1 h0]
  have hstep1 : stepAt mEx stB1 0 h0 gB1 = (stBmid2, gB2) := by
    unfold stepAt
    dsimp only
    have hget : stB1.particles.get ⟨0, h0⟩ = parB1 := rfl
    rw [hget, eval_stepB_tick2]
    simp [stBmid2, List.set]
  simp only [hstep1]
  rw [show (2:ℕ) = 1 + 1 from rfl]
  rw [updateLoop_stop mEx 1 1 stBmid2 gB2 (by simp [stBmid2])]
  dsimp only
  rw [show stBmid2.particles = [parB2] from rfl]
  norm_num [List.filter_cons, List.filter_nil, parB2]

/-- Claim C1 (failing input): in the single-particle state `stA` (one
PHYSARUM particle with energy `100` in a stress-free, obstacle-free grid)
with a random stream that makes the reproduction check succeed, one call to
`SlimeMold.update` leaves two particles whose energies are
`69.995 = 13999/200` and `49.995 = 9999/200`.  The child is spawned with
energy exactly `50`, so its energy `9999/200 ≠ 50` shows the child appended
during the sub-step was itself processed (movement, deposit, energy decay)
inside the same `update` call — the loop iterates the growing list. -/
theorem C1_child_processed_in_same_substep :
    ((SlimeMold.update mEx 0 stA rngZero).1.particles.map Particle.energy
      = [13999/200, 9999/200]) ∧ ((9999 : ℚ)/200 ≠ 50) := by
  constructor
  · rw [eval_update_A]
    norm_num [stepA1, childA1]
  · norm_num

/-- Claim C2 (counterexample): in the single-particle state `stB` (constant
environmental stress `1` for its PHYSARUM particle, base speed `1`,
multiplier `1`), the speed after one `update` is `9/10` but after a second
`update` — with identical species base speed, identical stress and identical
multiplier — it is `81/100`, not `9/10`: the damping multiplies the
persisted speed of the previous tick instead of being re-derived from the
species base speed. -/
theorem C2_speed_not_rederived_counterexample :
    ((SlimeMold.update mEx 60 stB rngOne).1.particles.map Particle.speed = [9/10]) ∧
    ((SlimeMold.update mEx 60 (SlimeMold.update mEx 60 stB rngOne).1
        (SlimeMold.update mEx 60 stB rngOne).2).1.particles.map Particle.speed
      = [81/100]) ∧
    ((81 : ℚ)/100 ≠ 9/10) := by
  refine ⟨?_, ?_, by norm_num⟩
  · rw [eval_update_B1]
    dsimp only
    rw [show stB1.particles = [parB1] from rfl]
    norm_num [parB1]
  · rw [eval_update_B1]
    dsimp only
    rw [eval_update_B2]
    norm_num [parB2]

/-- Claim C2 (amended): the per-particle speed is a persisted field; each
sub-step the stress stage overwrites it with
`max(0.1, previous_speed * (1 - stress * 0.1))`, a function of the speed the
particle carried into the tick — so the damping compounds across ticks, and
the movement/decay stages of the same tick use exactly this value (the speed
is re-derived from the species base speed only by the speed-selector
rescaling, not per tick). -/
theorem C2_speed_damping_compounds (M : MathF) (st : SlimeMold) (p : Particle)
    (g : RNG) :
    (processParticle M st p g).particle.speed =
      max (1/10) (p.speed * (1 - stressOf st p * (1/10))) :=
  processParticle_speed M st p g

/-- Claim C9: whenever the per-particle step spawns a child, the child is
constructed with speed equal to the parent's current (stress-damped,
possibly multiplier-rescaled) speed field — the same value the parent
carries out of the step, equal to `max(0.1, parent_speed_in * (1 - stress*0.1))`
and not the species base speed —, with energy exactly `50`, with position
equal to the parent's current (post-move, post-wrap) position, and with
species, preferences, trail strength and sensor geometry copied from the
parent. -/
theorem C9_child_construction (M : MathF) (st : SlimeMold) (p : Particle) (g : RNG)
    (c : Particle) (h : (processParticle M st p g).child = some c) :
    c.energy = 50 ∧
    c.x = (processParticle M st p g).particle.x ∧
    c.y = (processParticle M st p g).particle.y ∧
    c.speed = (processParticle M st p g).particle.speed ∧
    c.speed = max (1/10) (p.speed * (1 - stressOf st p * (1/10))) ∧
    c.species = p.species ∧ c.moisture_preference = p.moisture_preference ∧
    c.temperature_preference = p.temperature_preference ∧
    c.trail_strength = p.trail_strength ∧ c.sensor_distance = p.sensor_distance ∧
    c.sensor_angle = p.sensor_angle ∧ c.rotation_angle = p.rotation_angle := by
  obtain ⟨he, hx, hy, hs, hg⟩ := processParticle_child M st p g c h
  obtain ⟨g1, g2, g3, g4, g5, g6, g7⟩ := hg
  exact ⟨he, hx, hy, hs, by rw [hs, processParticle_speed], g1.symm, g2.symm,
    g3.symm, g4.symm, g5.symm, g6.symm, g7.symm⟩

theorem C3_obstacle_sentinel_minimum_witness :
    (0 < stA.width ∧ 0 < stA.height ∧ parA.energy ≤ 100 ∧
      (∀ a b : ℕ, 0 ≤ stA.environment.pheromone_map a b)) ∧
    ((stA.is_obstacle 5 7 = true → stA.get_sensor_value 5 7 parA = -1) ∧
     (stA.is_obstacle 5 7 = false → 0 ≤ stA.get_sensor_value 5 7 parA) ∧
     (∀ f l r : ℚ, (f = -1 ∨ 0 ≤ f) → (l = -1 ∨ 0 ≤ l) → (r = -1 ∨ 0 ≤ r) →
       ¬(f = -1 ∧ l = -1 ∧ r = -1) →
       ((baseDir f l r = Dir.front → 0 ≤ f) ∧
        (baseDir f l r = Dir.left → 0 ≤ l) ∧
        (baseDir f l r = Dir.right → 0 ≤ r)))) :=
  ⟨⟨by norm_num [stA], by norm_num [stA], by norm_num [parA], fun a b => le_refl 0⟩,
   C3_obstacle_sentinel_minimum stA 5 7 parA (by norm_num [stA]) (by norm_num [stA])
     (by norm_num [parA]) (fun a b => le_refl 0)⟩

theorem C4_energy_bounds_and_death_filter_witness :
    (∀ p ∈ stA.particles, p.energy ≤ 100) ∧
    (∀ p ∈ (SlimeMold.update mEx 0 stA rngZero).1.particles,
        0 < p.energy ∧ p.energy ≤ 100) :=
  ⟨by
    intro p hp
    simp [stA] at hp
    subst hp
    norm_num [parA],
   (C4_energy_bounds_and_death_filter mEx 0 stA rngZero (by
    intro p hp
    simp [stA] at hp
    subst hp
    norm_num [parA])).1⟩

theorem C5_field_bounds_witness :
    ((∀ p ∈ stA.particles, 0 ≤ p.trail_strength) ∧
      0 ≤ stA.environment.pheromone_decay_rate ∧
      stA.environment.pheromone_decay_rate ≤ 1 ∧ envBounds stA.environment) ∧
    (envBounds (Environment.init (fun _ _ _ => 0)) ∧
      envBounds (SlimeMold.update mEx 0 stA rngZero).1.environment ∧
      envBounds (depositFood stA 3 4).environment) :=
  ⟨⟨by
      intro p hp
      simp [stA] at hp
      subst hp
      norm_num [parA],
    by norm_num [stA, envA], by norm_num [stA, envA],
    by
      intro a b
      norm_num [stA, envA]⟩,
   C5_field_bounds mEx (fun _ _ _ => 0) 0 stA rngZero 3 4
     (by
       intro p hp
       simp [stA] at hp
       subst hp
       norm_num [parA])
     (by norm_num [stA, envA]) (by norm_num [stA, envA])
     (by
       intro a b
       norm_num [stA, envA])⟩

theorem C6_position_wraparound_witness :
    (0 < stA.width ∧ 0 < stA.height ∧
      (∀ p ∈ stA.particles, inRange stA.width stA.height p) ∧
      100 ≤ 800 ∧ 100 ≤ 600 ∧
      (∀ k, 0 ≤ rngZero.stream k ∧ rngZero.stream k < 1) ∧
      (∀ q, |mEx.cos q| ≤ 1) ∧ (∀ q, |mEx.sin q| ≤ 1)) ∧
    ((∀ p ∈ (updateN mEx (fun _ => 0) 1 (stA, rngZero)).1.particles,
        inRange stA.width stA.height p) ∧
     (∀ p ∈ (init_particles mEx 800 600 rngZero).1, inRange 800 600 p)) :=
  ⟨⟨by norm_num [stA], by norm_num [stA],
    by
      intro p hp
      simp [stA] at hp
      subst hp
      norm_num [inRange, parA, stA],
    by norm_num, by norm_num,
    by
      intro k
      norm_num [rngZero],
    by
      intro q
      have hc : mEx.cos q = if q = 0 then 1 else 0 := rfl
      rw [hc]
      split <;> norm_num,
    by
      intro q
      have hs : mEx.sin q = 0 := rfl
      rw [hs]
      norm_num⟩,
   C6_position_wraparound mEx (fun _ => 0) stA rngZero rngZero 800 600 1
     (by norm_num [stA]) (by norm_num [stA])
     (by
       intro p hp
       simp [stA] at hp
       subst hp
       norm_num [inRange, parA, stA])
     (by norm_num) (by norm_num)
     (by
       intro k
       norm_num [rngZero])
     (by
       intro q
       have hc : mEx.cos q = if q = 0 then 1 else 0 := rfl
       rw [hc]
       split <;> norm_num)
     (by
       intro q
       have hs : mEx.sin q = 0 := rfl
       rw [hs]
       norm_num)⟩

theorem C7_toggle_idempotence_witness :
    (simA.active_species Species.DICTYOSTELIUM = true ∧
      (∀ p ∈ simA.slime.particles, simA.active_species p.species = true)) ∧
    (speciesCountIn
        (toggle_species mEx (toggle_species mEx simA Species.DICTYOSTELIUM rngZero).1
          Species.DICTYOSTELIUM rngZero).1.slime.particles Species.DICTYOSTELIUM =
      speciesCount Species.DICTYOSTELIUM ∧
     speciesCountIn (toggle_species mEx simA Species.DICTYOSTELIUM rngZero).1.slime.particles
        Species.DICTYOSTELIUM = 0 ∧
     othersOf (toggle_species mEx simA Species.DICTYOSTELIUM rngZero).1.slime.particles
        Species.DICTYOSTELIUM = othersOf simA.slime.particles Species.DICTYOSTELIUM ∧
     othersOf (toggle_species mEx (toggle_species mEx simA Species.DICTYOSTELIUM rngZero).1
          Species.DICTYOSTELIUM rngZero).1.slime.particles Species.DICTYOSTELIUM =
        othersOf simA.slime.particles Species.DICTYOSTELIUM) :=
  ⟨⟨rfl, fun _ _ => rfl⟩,
   C7_toggle_idempotence mEx simA Species.DICTYOSTELIUM rngZero rngZero rfl
     (fun _ _ => rfl)⟩

theorem C9_child_construction_witness :
    ((processParticle mEx stA parA rngZero).child = some childA) ∧
    (childA.energy = 50 ∧
     childA.x = (processParticle mEx stA parA rngZero).particle.x ∧
     childA.y = (processParticle mEx stA parA rngZero).particle.y ∧
     childA.speed = (processParticle mEx stA parA rngZero).particle.speed ∧
     childA.speed = max (1/10) (parA.speed * (1 - stressOf stA parA * (1/10))) ∧
     childA.species = parA.species ∧
     childA.moisture_preference = parA.moisture_preference ∧
     childA.temperature_preference = parA.temperature_preference ∧
     childA.trail_strength = parA.trail_strength ∧
     childA.sensor_distance = parA.sensor_distance ∧
     childA.sensor_angle = parA.sensor_angle ∧
     childA.rotation_angle = parA.rotation_angle) :=
  ⟨by rw [eval_stepA_parent],
   C9_child_construction mEx stA parA rngZero childA (by rw [eval_stepA_parent])⟩
